import Mathlib

/-!
Verification development for the BRV license app: a shallow embedding of
`brv_license_app/license_client.py` (LMFWC HTTP client) and
`brv_license_app/brv_license_app/doctype/license_settings/license_settings.py`
(license lifecycle controller), together with theorems about the embedded
functions.

Modelling conventions:
- JSON values are modelled by the inductive `JVal`; Python `dict.get`
  returning `None` for a missing key is modelled by `JVal.getd` returning
  `JVal.null`.
- Datetimes are modelled as integer timestamps.  The external library
  parser `frappe.utils.get_datetime` is abstracted as a parameter
  `pd : String → Option Int` (`none` = raises); all theorems hold for every
  such parser.
- Python truthiness is `JVal.truthy`.
- The diagnostic raw fields (`last_response_raw`, `last_error_raw`) of the
  License Settings document are not modelled: no proved property mentions
  them, and they are written on every path.
-/

namespace BrvLicense

/-- JSON value, the shape of LMFWC request/response bodies.  Objects keep
insertion order, matching Python dict iteration order (`next(iter(d))` is the
first inserted key). -/
inductive JVal where
  | null : JVal
  | jbool : Bool → JVal
  | num : Int → JVal
  | str : String → JVal
  | arr : List JVal → JVal
  | obj : List (String × JVal) → JVal

/-- Python truthiness of a JSON value (`bool(v)`). -/
def JVal.truthy : JVal → Bool
  | .null => false
  | .jbool b => b
  | .num n => n != 0
  | .str s => s != ""
  | .arr xs => !xs.isEmpty
  | .obj fs => !fs.isEmpty

/-- First-match association lookup (Python dict keys are unique, so first
match is the match). -/
def jlookup : List (String × JVal) → String → Option JVal
  | [], _ => none
  | (k, v) :: rest, key => if k = key then some v else jlookup rest key

/-- `d.get(key)` on an object, with `None`→`.null`.  The non-object clause
exists only for totality: every call site of `getd` models a Python `.get`
that is isinstance-guarded (token selector, `has_active_activation`) or
called under an explicit dict check by its caller (the update helpers match
on the dict shape first and model the `AttributeError` raise separately),
or sits in a try/except whose handler makes the `.null` default
behaviourally equal (`activate_license`'s payload sniffing). -/
def JVal.getd (v : JVal) (key : String) : JVal :=
  match v with
  | .obj fs => (jlookup fs key).getD .null
  | _ => .null

/-- `key in d` for an object. -/
def JVal.hasKey (v : JVal) (key : String) : Bool :=
  match v with
  | .obj fs => (jlookup fs key).isSome
  | _ => false

/-- `str(v)` for the scalar JSON values.  Python renderings of nested
containers are not reproduced (token and message fields in the LMFWC contract
are strings); containers map to a fixed marker. -/
def JVal.pyStr : JVal → String
  | .null => "None"
  | .jbool true => "True"
  | .jbool false => "False"
  | .num n => toString n
  | .str s => s
  | .arr _ => "<list>"
  | .obj _ => "<dict>"

/-- `int(v)` as used on `timesActivated` and embedded `status` fields;
`none` models a raised `ValueError`/`TypeError`. -/
def JVal.pyInt : JVal → Option Int
  | .num n => some n
  | .str s => s.toInt?
  | .jbool true => some 1
  | .jbool false => some 0
  | _ => none

-- ---------------------------------------------------------------------
-- String helpers (ASCII-level models of the Python string operations used)
-- ---------------------------------------------------------------------

/-- Whitespace for `str.strip()` (the characters that occur in this
codebase's data). -/
def isSpaceChar (c : Char) : Bool :=
  c = ' ' || c = '\t' || c = '\n' || c = '\r'

/-- `s.strip()`. -/
def pyStrip (s : String) : String :=
  ⟨((s.data.dropWhile isSpaceChar).reverse.dropWhile isSpaceChar).reverse⟩

/-- ASCII `str.lower()` on one character. -/
def asciiLower (c : Char) : Char :=
  if 'A' ≤ c && c ≤ 'Z' then Char.ofNat (c.toNat + 32) else c

/-- `s.lower()` (ASCII). -/
def lowerStr (s : String) : String := ⟨s.data.map asciiLower⟩

/-- Is `pat` a prefix of `l`? -/
def charsPrefix : List Char → List Char → Bool
  | [], _ => true
  | _ :: _, [] => false
  | p :: ps, c :: cs => p = c && charsPrefix ps cs

/-- Does `l` contain `pat` as a contiguous sublist? -/
def charsContain : List Char → List Char → Bool
  | [], pat => pat.isEmpty
  | c :: cs, pat => charsPrefix pat (c :: cs) || charsContain cs pat

/-- Python `pat in s` substring test. -/
def strContains (s pat : String) : Bool := charsContain s.data pat.data

/-- `s[:n]` slicing. -/
def strTake (s : String) (n : Nat) : String := ⟨s.data.take n⟩

-- ---------------------------------------------------------------------
-- License State (the "License Settings" single document)
-- ---------------------------------------------------------------------

/-- Status constants, `license_settings.py` lines 22–29. -/
def STATUS_UNCONFIGURED : String := "UNCONFIGURED"

def STATUS_ACTIVE : String := "ACTIVE"

def STATUS_VALIDATED : String := "VALIDATED"

def STATUS_DEACTIVATED : String := "DEACTIVATED"

def STATUS_EXPIRED : String := "EXPIRED"

def STATUS_REVOKED : String := "REVOKED"

def STATUS_GRACE_SOFT : String := "GRACE_SOFT"

def STATUS_LOCK_HARD : String := "LOCK_HARD"

/-- The persistent License State.  Strings use `""` for Python `None`/unset
(the controller only ever tests these fields for truthiness, where `None` and
`""` coincide); datetimes are `Option Int` timestamps. -/
structure Doc where
  license_key : String
  activation_token : String
  status : String
  reason : String
  expires_at : Option Int
  grace_until : Option Int
  last_validated : Option Int
deriving DecidableEq, Repr

/-- A fresh, unconfigured document. -/
def Doc.empty : Doc :=
  ⟨"", "", "", "", none, none, none⟩

-- ---------------------------------------------------------------------
-- Token Selector (`_extract_latest_token`, lines 389–427)
-- ---------------------------------------------------------------------

/-- `parse_ts` (lines 404–410): falsy field → 0.0; else
`get_datetime(s).timestamp()` with any exception → 0.0. -/
def parse_ts (pd : String → Option Int) (v : JVal) : Int :=
  if v.truthy then
    match v with
    | .str s => (pd s).getD 0
    | _ => 0
  else 0

/-- `score` (lines 412–415): `(is_active, recency)` where `is_active` is 1
iff `deactivated_at` is falsy, and recency is `parse_ts(updated_at) or
parse_ts(created_at)` (Python `or`: fall back when the first is 0.0). -/
def score (pd : String → Option Int) (item : JVal) : Nat × Int :=
  let is_active : Nat := if (item.getd "deactivated_at").truthy then 0 else 1
  let u := parse_ts pd (item.getd "updated_at")
  let ts := if u = 0 then parse_ts pd (item.getd "created_at") else u
  (is_active, ts)

/-- Strict lexicographic order on scores: Python tuple `<`. -/
def scLt (a b : Nat × Int) : Prop :=
  a.1 < b.1 ∨ (a.1 = b.1 ∧ a.2 < b.2)

instance (a b : Nat × Int) : Decidable (scLt a b) := by
  unfold scLt; infer_instance

/-- Python `max(xs, key=f)`: scan left to right, replacing the current best
only on a strictly greater key, so the first maximal element wins ties. -/
def maxBy (f : JVal → Nat × Int) (x : JVal) (xs : List JVal) : JVal :=
  xs.foldl (fun best y => if scLt (f best) (f y) then y else best) x

/-- The candidate filter (line 417): dict entries with a truthy `token`. -/
def isCandidate (x : JVal) : Bool :=
  match x with
  | .obj _ => (x.getd "token").truthy
  | _ => false

/-- The `activation_data` resolution of `_extract_latest_token` (lines
390–393): `payload.get("data") if isinstance(payload, dict) else payload`,
then `.get("activationData")` when that is a dict (else `None`). -/
def activation_data_of (payload : JVal) : JVal :=
  let data : JVal :=
    match payload with
    | .obj fs => (jlookup fs "data").getD .null
    | _ => payload
  match data with
  | .obj _ => data.getd "activationData"
  | _ => .null

/-- `_extract_latest_token` (lines 389–427). -/
def extract_latest_token (pd : String → Option Int) (payload : JVal) : Option String :=
  let activation_data := activation_data_of payload
  match activation_data with
  | .obj _ =>
      -- single-object form: return its token (or null when falsy)
      let tok := activation_data.getd "token"
      if tok.truthy then some (pyStrip tok.pyStr) else none
  | .arr items =>
      if items.isEmpty then none
      else
        match items.filter isCandidate with
        | [] => none
        | c :: cs =>
            let best := maxBy (score pd) c cs
            let tok := best.getd "token"
            if tok.truthy then some (pyStrip tok.pyStr) else none
  | _ => none

-- ---------------------------------------------------------------------
-- Controller internal helpers (`license_settings.py`)
-- ---------------------------------------------------------------------

/-- `_extract_data` (lines 336–339): unwrap `resp["data"]` when it is a dict
or a list, else return the response unchanged. -/
def extract_data (resp : JVal) : JVal :=
  match resp with
  | .obj fs =>
      match jlookup fs "data" with
      | some d =>
          match d with
          | .obj _ => d
          | .arr _ => d
          | _ => resp
      | none => resp
  | _ => resp

/-- `_maybe_update_token_from_payload` (lines 376–387): adopt the extracted
token when it is truthy and differs from the stripped current token. -/
def maybe_update_token_from_payload (pd : String → Option Int) (doc : Doc)
    (payload : JVal) : Bool × Doc :=
  match extract_latest_token pd payload with
  | none => (false, doc)
  | some latest =>
      if latest = "" then (false, doc)
      else
        let current := pyStrip doc.activation_token
        if latest ≠ current then (true, { doc with activation_token := latest })
        else (false, doc)

/-- Abstract stand-in for `str(e)` of an exception raised inside the
controller by the update helpers (the `AttributeError` of `.get` on a list
payload, or the `ValueError`/`TypeError` of `int()` on line 476).  Only the
control flow of these exceptions is modelled, not their rendered text. -/
def exc_str : String := "<python exception text>"

/-- The body of `_apply_expiry` on a dict payload: adopt a truthy
`expiresAt` when it parses; parse failures (the inner try/except) leave
`expires_at` unchanged. -/
def apply_expiry_fields (pd : String → Option Int) (doc : Doc) (data : JVal) : Doc :=
  let e := data.getd "expiresAt"
  if e.truthy then
    match e with
    | .str s =>
        match pd s with
        | some t => { doc with expires_at := some t }
        | none => doc
    | _ => doc
  else doc

/-- `_apply_expiry` (lines 494–500).  `data.get("expiresAt")` is not inside
any try/except, so on a non-dict payload (which `_extract_data` can return
for list-shaped `data`) it raises `AttributeError` before any mutation:
`none` models that raise, with the document unchanged at the raise site. -/
def apply_expiry (pd : String → Option Int) (doc : Doc) (data : JVal) : Option Doc :=
  match data with
  | .obj _ => some (apply_expiry_fields pd doc data)
  | _ => none

/-- `_clear_grace` (lines 502–506). -/
def clear_grace (doc : Doc) : Doc :=
  let d := { doc with grace_until := none }
  if d.status = STATUS_GRACE_SOFT || d.status = STATUS_LOCK_HARD then
    { d with status := STATUS_VALIDATED, reason := "Grace cleared after success" }
  else d

/-- `has_active_activation` (lines 468–474, local to
`_apply_validation_update`). -/
def has_active_activation (data : JVal) : Bool :=
  match data.getd "activationData" with
  | .obj _ => !((data.getd "activationData").getd "deactivated_at").truthy
  | .arr xs =>
      xs.any fun x =>
        match x with
        | .obj _ => !(x.getd "deactivated_at").truthy
        | _ => false
  | _ => false

/-- `int(data.get("timesActivated") or 0)` (line 476), called only with a
dict `data`.  The `int()` call is in no try/except, so a truthy value that
does not convert (non-numeric string, container) raises `ValueError` or
`TypeError`: `none` models that raise. -/
def timesActivatedInt (data : JVal) : Option Int :=
  let v := data.getd "timesActivated"
  if v.truthy then v.pyInt else some 0

/-- Result of a state-update helper that can raise: `ok` for normal
completion, `raised` for a propagating exception, in both cases carrying
the document as the helper leaves it (mutations before the raise persist,
since the Python document is mutated in place). -/
inductive UpdResult where
  | ok (d : Doc)
  | raised (d : Doc)
deriving DecidableEq

/-- The document carried by an `UpdResult`, whichever way it ended. -/
def UpdResult.doc : UpdResult → Doc
  | .ok d => d
  | .raised d => d

/-- `_apply_validation_update` (lines 445–490): the shared success update
rule for validate responses.  A non-dict payload raises in `_apply_expiry`
before any mutation; line 476's `or` short-circuits, so the fallible
`int()` conversion runs only when no activation record is active, and its
raise leaves the document with only the expiry mutation applied. -/
def apply_validation_update (pd : String → Option Int) (now : Int) (doc : Doc)
    (data : JVal) : UpdResult :=
  match apply_expiry pd doc data with
  | none => .raised doc
  | some d =>
      match d.expires_at with
      | some ex =>
          if now > ex then
            .ok { d with
              status := STATUS_EXPIRED,
              reason := if d.reason ≠ "" then d.reason else "License expired",
              grace_until := if d.grace_until.isSome then d.grace_until else some now,
              last_validated := some now }
          else apply_validation_normal now d data
      | none => apply_validation_normal now d data
where
  /-- The non-expired tail of `_apply_validation_update` (lines 467–486):
  `active = has_active_activation(data) or int(data.get("timesActivated") or 0) > 0`,
  then the VALIDATED/DEACTIVATED flow with `last_validated = now` and
  `_clear_grace`. -/
  apply_validation_normal (now : Int) (d : Doc) (data : JVal) : UpdResult :=
    if has_active_activation data then
      .ok (clear_grace
        { d with status := STATUS_VALIDATED, reason := "Validated", last_validated := some now })
    else
      match timesActivatedInt data with
      | none => .raised d
      | some n =>
          if n > 0 then
            .ok (clear_grace
              { d with
                status := STATUS_VALIDATED
                reason := "Validated"
                last_validated := some now })
          else
            .ok (clear_grace
              { d with
                status := STATUS_DEACTIVATED
                reason := "Validated (no active activation)"
                last_validated := some now })

/-- `_apply_activation_update` (lines 429–437); `none` models the
`AttributeError` of `_apply_expiry` on a non-dict payload, which happens
before any mutation. -/
def apply_activation_update (pd : String → Option Int) (now : Int) (doc : Doc)
    (data : JVal) : Option Doc :=
  match apply_expiry pd doc data with
  | none => none
  | some d =>
      some (clear_grace
        { d with status := STATUS_ACTIVE, reason := "Activated", last_validated := some now })

/-- `_apply_deactivation_update` (lines 439–443); `none` models the
`AttributeError` of `_apply_expiry` on a non-dict payload (before any
mutation). -/
def apply_deactivation_update (pd : String → Option Int) (doc : Doc)
    (data : JVal) : Option Doc :=
  match apply_expiry pd doc data with
  | none => none
  | some d => some { d with status := STATUS_DEACTIVATED, reason := "Deactivated" }

/-- `_is_expired_error` (lines 315–316). -/
def is_expired_error (msg : String) : Bool :=
  strContains (lowerStr msg) "expired"

/-- `_mark_expired` (lines 318–321). -/
def mark_expired (now : Int) (doc : Doc) (reason : String) : Doc :=
  { doc with
    status := STATUS_EXPIRED,
    reason := if reason ≠ "" then reason else "License expired",
    grace_until := some now }

/-- `_apply_grace_on_failure` (lines 508–540).  `delta_hours` is computed in
ℚ so that fractional-hour gaps (the 47.5 h spec point) are exact. -/
def apply_grace_on_failure (now : Int) (doc : Doc) (reason : String) : Doc :=
  let d := { doc with reason := "Grace policy engaged: " ++ reason }
  match d.last_validated with
  | none => { d with status := STATUS_GRACE_SOFT, grace_until := some now }
  | some last =>
      let delta_hours : ℚ := ((now - last : Int) : ℚ) / 3600
      let st :=
        if delta_hours ≤ 24 then STATUS_GRACE_SOFT
        else if delta_hours ≥ 48 then STATUS_LOCK_HARD
        else STATUS_GRACE_SOFT
      { d with status := st, grace_until := some now }

-- ---------------------------------------------------------------------
-- API client (`license_client.py`)
-- ---------------------------------------------------------------------

/-- Payload carried by `LMFWCContractError` and `LMFWCRequestError`:
`(message, status, payload)`. -/
structure ErrData where
  msg : String
  status : Option Int
  payload : JVal

/-- `_extract_embedded_error` (lines 399–415): first error code (default
`"lmfwc_error"`), its first message, and the integer status under the same
code in `error_data`. -/
def extract_embedded_error (errs errData : JVal) : String × Option String × Option Int :=
  let code :=
    match errs with
    | .obj ((k, _) :: _) => k
    | _ => "lmfwc_error"
  let val : JVal :=
    match errs with
    | .obj fs => (jlookup fs code).getD .null
    | _ => .null
  let msg : Option String :=
    match val with
    | .arr (m :: _) => some m.pyStr
    | _ => none
  let status : Option Int :=
    match errData with
    | .obj fs =>
        match jlookup fs code with
        | some (.obj ed) =>
            match jlookup ed "status" with
            | some sv => sv.pyInt
            | none => none
        | _ => none
    | _ => none
  (code, msg, status)

/-- `data.get("errors") or {}` (line 367). -/
def errs_dict_of (data : JVal) : JVal :=
  if (data.getd "errors").truthy then data.getd "errors" else .obj []

/-- `data.get("error_data") or {}` (line 368). -/
def error_data_dict_of (data : JVal) : JVal :=
  if (data.getd "error_data").truthy then data.getd "error_data" else .obj []

/-- The HTTP-success half of `_handle_response` (lines 362–377): given an
already-parsed JSON `body` of a `status < 400` response, either raise
`LMFWCContractError` for a `data` object embedding `errors`/`error_data`, or
return the body unchanged (the `return body  # happy path` and the
pass-through Pattern B). -/
def handle_success_body (body : JVal) : Except ErrData JVal :=
  match body with
  | .obj fs =>
      match jlookup fs "data" with
      | some data =>
          match data with
          | .obj ds =>
              if (jlookup ds "errors").isSome || (jlookup ds "error_data").isSome then
                let r := extract_embedded_error (errs_dict_of data) (error_data_dict_of data)
                -- `msg = err_msg or "Operation failed"` (line 370): Python
                -- truthiness, so an extracted empty string also defaults.
                let m0 := (r.2.1).getD ""
                .error ⟨if m0 ≠ "" then m0 else "Operation failed", r.2.2, body⟩
              else .ok body
          | _ => .ok body
      | none => .ok body
  | _ => .ok body

/-- `_LICENSE_RE = ^[A-Z0-9\-]{10,}$` (line 126). -/
def licenseChar (c : Char) : Bool :=
  ('A' ≤ c && c ≤ 'Z') || ('0' ≤ c && c ≤ '9') || c = '-'

/-- `_validate_license_key` accepts exactly the strings matching the
conservative pattern. -/
def licenseKeyOk (s : String) : Bool :=
  s.length ≥ 10 && s.data.all licenseChar

/-- `_TOKEN_RE = ^[A-Fa-f0-9]{16,128}$` (line 127). -/
def hexChar (c : Char) : Bool :=
  ('0' ≤ c && c ≤ '9') || ('a' ≤ c && c ≤ 'f') || ('A' ≤ c && c ≤ 'F')

/-- `_validate_token` accepts exactly the hex-like pattern. -/
def tokenFormatOk (s : String) : Bool :=
  16 ≤ s.length && s.length ≤ 128 && s.data.all hexChar

/-- The short-TTL lock store backing `_frappe_cache_setnx`: an availability
flag (Redis reachable or not) and key → absolute-expiry entries. -/
structure LockStore where
  available : Bool
  entries : List (String × Int)
deriving DecidableEq, Repr

/-- Assoc update used by the lock model. -/
def setEntry : List (String × Int) → String → Int → List (String × Int)
  | [], k, v => [(k, v)]
  | (k1, v1) :: rest, k, v =>
      if k1 = k then (k, v) :: rest else (k1, v1) :: setEntry rest k v

/-- Assoc lookup used by the lock model. -/
def getEntry : List (String × Int) → String → Option Int
  | [], _ => none
  | (k1, v1) :: rest, k => if k1 = k then some v1 else getEntry rest k

/-- `_frappe_cache_setnx` (lines 172–193) at wall-clock `t`: SETNX on the
key followed by EXPIRE (the pipeline refreshes the TTL even when SETNX
failed); an unavailable store fails open and reports the lock as acquired. -/
def frappe_cache_setnx (st : LockStore) (t : Int) (key : String) (ttl : Int) :
    Bool × LockStore :=
  if st.available then
    match getEntry st.entries key with
    | some exp =>
        if t < exp then (false, { st with entries := setEntry st.entries key (t + ttl) })
        else (true, { st with entries := setEntry st.entries key (t + ttl) })
    | none => (true, { st with entries := setEntry st.entries key (t + ttl) })
  else (true, st)

/-- The lock key of `LMFWCClient.activate` (line 235):
`brv_license_app:activate_lock:v2:activate:{lk}:{(token or "none")[:16]}`. -/
def activateLockKey (lk : String) (token : Option String) : String :=
  "brv_license_app:activate_lock:v2:activate:" ++ lk ++ ":" ++
    strTake (token.getD "none") 16

/-- Pre-network outcome classification for `LMFWCClient.activate`. -/
inductive GuardResult where
  | configError (msg : String)
  | blocked (msg : String) (status : Int)
  | network
deriving DecidableEq, Repr

/-- The pre-network part of `LMFWCClient.activate` (lines 229–243): input
validation, then the idempotency guard.  `GuardResult.network` means the
HTTP GET is issued (its response handling is `handle_success_body`). -/
def client_activate_guard (st : LockStore) (t : Int) (lk : String)
    (token : Option String) (idempotent_window_s : Int) :
    GuardResult × LockStore :=
  if !licenseKeyOk lk then
    (.configError "license_key format looks invalid (expect A-Z, 0-9 and dashes)", st)
  else
    match token with
    | some tk =>
        if !tokenFormatOk tk then
          (.configError "token format looks invalid (expect hex-like string)", st)
        else runGuard st t lk token idempotent_window_s
    | none => runGuard st t lk token idempotent_window_s
where
  runGuard (st : LockStore) (t : Int) (lk : String) (token : Option String)
      (w : Int) : GuardResult × LockStore :=
    let key := activateLockKey lk token
    let r := frappe_cache_setnx st t key w
    if r.1 then (.network, r.2)
    else (.blocked "Duplicate activate blocked by idempotency guard" 409, r.2)

-- ---------------------------------------------------------------------
-- Controller operations
-- ---------------------------------------------------------------------

/-- Outcome of one remote client call, as observed by the controller:
success payload, `LMFWCContractError`, `LMFWCRequestError` (each with
`str(e)` and `e.payload`), or an unexpected exception. -/
inductive RemoteOutcome where
  | ok (resp : JVal)
  | contractFail (msg : String) (payload : JVal)
  | requestFail (msg : String) (payload : JVal)
  | unexpectedFail (msg : String)

/-- Outcome of a whitelisted controller operation: returned payload,
`frappe.throw` with a user-facing message, or an exception propagating
uncaught out of the operation. -/
inductive OpOutcome where
  | ret (v : JVal)
  | thrown (msg : String)
  | raisedRequest (msg : String)
  | raisedContract (msg : String)
  | raisedOther (msg : String)

/-- One entry of the remote-call trace of an operation. -/
inductive TraceCall where
  | validateCall
  | activateCall (token : String)
deriving DecidableEq, Repr

/-- `lk = (license_key or doc.license_key or "").strip()`. -/
def resolveKey (doc : Doc) (license_key : Option String) : String :=
  pyStrip (if (license_key.getD "") ≠ "" then license_key.getD "" else doc.license_key)

/-- The expiry sniffing of `activate_license`'s error handler (lines 77–97):
the payload carries the `lmfwc_rest_license_expired` code, or the message
contains `"expire"` case-insensitively. -/
def activate_error_expired (msg : String) (payload : JVal) : Bool :=
  let data := if (payload.getd "data").truthy then payload.getd "data" else .obj []
  let errs := if (data.getd "errors").truthy then data.getd "errors" else .obj []
  let fromPayload :=
    match errs with
    | .obj fs => (jlookup fs "lmfwc_rest_license_expired").isSome
    | _ => false
  fromPayload || strContains (lowerStr msg) "expire"

/-- `activate_license` (lines 51–143).  `pe` abstracts
`_parse_expiry_from_msg` (regex `expired on <ts> (UTC)` + `get_datetime`);
`remote` is the outcome of `client.activate`. -/
def activate_license_model (pd pe : String → Option Int) (now : Int) (doc : Doc)
    (license_key token : Option String) (remote : RemoteOutcome) : OpOutcome × Doc :=
  let _ := token
  let lk := resolveKey doc license_key
  if lk = "" then (.thrown "License Key is required in settings or as parameter.", doc)
  else
    match remote with
    | .ok resp =>
        -- an AttributeError from `_apply_activation_update` (list payload)
        -- lands in the generic `except Exception` branch, document unchanged
        match apply_activation_update pd now doc (extract_data resp) with
        | some d1 =>
            (.ret (extract_data resp), (maybe_update_token_from_payload pd d1 resp).2)
        | none =>
            (.thrown "Operation failed due to unexpected error. See logs for details.", doc)
    | .contractFail msg payload =>
        activate_license_err pe now doc msg payload
    | .requestFail msg payload =>
        activate_license_err pe now doc msg payload
    | .unexpectedFail _ =>
        (.thrown "Operation failed due to unexpected error. See logs for details.", doc)
where
  /-- The shared `except (LMFWCRequestError, LMFWCContractError)` branch. -/
  activate_license_err (pe : String → Option Int) (now : Int) (doc : Doc)
      (msg : String) (payload : JVal) : OpOutcome × Doc :=
    if activate_error_expired msg payload then
      let d1 :=
        match pe msg with
        | some dt => { doc with expires_at := some dt }
        | none => doc
      let d2 :=
        { d1 with
          status := STATUS_EXPIRED,
          reason := if msg ≠ "" then msg else "License expired",
          grace_until := if d1.grace_until.isSome then d1.grace_until else some now,
          last_validated := some now }
      (.thrown "License is expired. Please renew your license.", d2)
    else (.thrown "Operation failed. See Error Log for details.", doc)

/-- `validate_license` (lines 266–310): always calls the server; on success
applies the shared update rule and token rotation, on failure applies the
grace policy. -/
def validate_license_model (pd : String → Option Int) (now : Int) (doc : Doc)
    (license_key : Option String) (remote : RemoteOutcome) : OpOutcome × Doc :=
  let lk := resolveKey doc license_key
  if lk = "" then (.thrown "License Key is required in settings or as parameter.", doc)
  else
    match remote with
    | .ok resp =>
        -- a raise inside `_apply_validation_update` keeps its partial
        -- mutations and lands in `except Exception`: grace policy on the
        -- partially updated document, then `frappe.throw(str(e))`
        match apply_validation_update pd now doc (extract_data resp) with
        | .ok d1 =>
            (.ret (extract_data resp), (maybe_update_token_from_payload pd d1 resp).2)
        | .raised d1 =>
            (.thrown exc_str, apply_grace_on_failure now d1 ("Unexpected error: " ++ exc_str))
    | .contractFail msg _ =>
        (.thrown "Operation failed. See Error Log for details.",
          apply_grace_on_failure now doc msg)
    | .requestFail msg _ =>
        (.thrown "Operation failed. See Error Log for details.",
          apply_grace_on_failure now doc msg)
    | .unexpectedFail msg =>
        (.thrown msg, apply_grace_on_failure now doc ("Unexpected error: " ++ msg))

/-- `_preflight_refresh_token` (lines 356–374): a silent validate; on
success it may rotate the token (setting a rotation reason), any failure
leaves the document untouched. -/
def preflight_refresh_token (pd : String → Option Int) (doc : Doc)
    (res : Except String JVal) : Doc :=
  match res with
  | .error _ => doc
  | .ok v =>
      let r := maybe_update_token_from_payload pd doc v
      if r.1 then { r.2 with reason := "Token rotated from validate" } else r.2

/-- `_activate_via_client` (lines 343–354): identical side effects to
`activate_license`'s happy path.  When `_apply_activation_update` raises
(non-dict payload) the document is unchanged at the raise; the raise itself
propagates to the caller and is modelled at the call sites
(`reactivate_license_model`), which consult `apply_activation_update`
first — the `none` clause here only keeps the pre-call state. -/
def activate_via_client (pd : String → Option Int) (now : Int) (doc : Doc)
    (resp : JVal) : Doc × JVal :=
  let payload := extract_data resp
  match apply_activation_update pd now doc payload with
  | some d1 => ((maybe_update_token_from_payload pd d1 resp).2, payload)
  | none => (doc, payload)

/-- The effective token of `reactivate_license` (line 165): the stripped
stored token after the first preflight, else the stripped caller token. -/
def reactivate_eff_token (pd : String → Option Int) (doc : Doc)
    (token : Option String) (pre1 : Except String JVal) : String :=
  let d1 := preflight_refresh_token pd doc pre1
  let a := pyStrip d1.activation_token
  if a ≠ "" then a else pyStrip (token.getD "")

/-- The retry token of `reactivate_license` (line 186): the stripped stored
token after the second preflight, else the first-attempt token. -/
def reactivate_retry_token (pd : String → Option Int) (d1 : Doc)
    (pre2 : Except String JVal) (eff : String) : String :=
  let d2 := preflight_refresh_token pd d1 pre2
  let a := pyStrip d2.activation_token
  if a ≠ "" then a else eff

/-- `reactivate_license` (lines 147–201).  The oracle supplies the outcomes
of the (up to) four remote calls: first preflight validate, first activate,
retry preflight validate, retry activate.  The trace records the remote
calls actually issued, in order. -/
def reactivate_license_model (pd : String → Option Int) (now : Int) (doc : Doc)
    (token license_key : Option String)
    (pre1 : Except String JVal) (act1 : RemoteOutcome)
    (pre2 : Except String JVal) (act2 : RemoteOutcome) :
    OpOutcome × Doc × List TraceCall :=
  let lk := resolveKey doc license_key
  if lk = "" then (.thrown "License Key is required in settings or as parameter.", doc, [])
  else
    let d1 := preflight_refresh_token pd doc pre1
    let eff := reactivate_eff_token pd doc token pre1
    if eff = "" then
      (.thrown "Activation token is required (not found in settings or validation response).",
        d1, [.validateCall])
    else
      match act1 with
      | .ok resp =>
          -- an AttributeError inside `_activate_via_client` propagates out
          -- of `reactivate_license` uncaught (no generic except clause)
          match apply_activation_update pd now d1 (extract_data resp) with
          | some _ =>
              let r := activate_via_client pd now d1 resp
              (.ret r.2, r.1, [.validateCall, .activateCall eff])
          | none =>
              (.raisedOther exc_str, d1, [.validateCall, .activateCall eff])
      | .requestFail m _ =>
          (.raisedRequest m, d1, [.validateCall, .activateCall eff])
      | .unexpectedFail m =>
          (.raisedOther m, d1, [.validateCall, .activateCall eff])
      | .contractFail m _ =>
          if is_expired_error m then
            (.thrown "License is expired. Please renew your license.",
              mark_expired now d1 m, [.validateCall, .activateCall eff])
          else if strContains m "Activation limit" || strContains m "maximum activation" then
            let d2 := preflight_refresh_token pd d1 pre2
            let eff2 := reactivate_retry_token pd d1 pre2 eff
            if eff2 ≠ "" ∧ eff2 ≠ eff then
              match act2 with
              | .ok resp =>
                  match apply_activation_update pd now d2 (extract_data resp) with
                  | some _ =>
                      let r := activate_via_client pd now d2 resp
                      (.ret r.2, r.1,
                        [.validateCall, .activateCall eff, .validateCall, .activateCall eff2])
                  | none =>
                      (.raisedOther exc_str, d2,
                        [.validateCall, .activateCall eff, .validateCall, .activateCall eff2])
              | .requestFail m2 _ =>
                  if strContains (lowerStr m2) "idempotency guard" then
                    (.thrown "Another activation attempt is still settling. Please retry in a few seconds.",
                      d2, [.validateCall, .activateCall eff, .validateCall, .activateCall eff2])
                  else
                    (.raisedRequest m2, d2,
                      [.validateCall, .activateCall eff, .validateCall, .activateCall eff2])
              | .contractFail m2 _ =>
                  (.raisedContract m2, d2,
                    [.validateCall, .activateCall eff, .validateCall, .activateCall eff2])
              | .unexpectedFail m2 =>
                  (.raisedOther m2, d2,
                    [.validateCall, .activateCall eff, .validateCall, .activateCall eff2])
            else
              (.thrown "Activation limit reached on the server and no fresh token was issued. Please deactivate an existing activation or increase the limit.",
                d2, [.validateCall, .activateCall eff, .validateCall])
          else (.thrown "Operation failed. See Error Log for details.", d1,
            [.validateCall, .activateCall eff])

/-- The document on which `deactivate_license` runs after its optional
preflight (lines 213–217): preflighted when no token argument is supplied,
unchanged otherwise. -/
def deactivate_predoc (pd : String → Option Int) (doc : Doc)
    (token : Option String) (pre : Except String JVal) : Doc :=
  if pyStrip (token.getD "") = "" then preflight_refresh_token pd doc pre
  else doc

/-- Lines 226–233 of `deactivate_license`: impose the hard lock and clear
the locally held token. -/
def deactivate_locked (now : Int) (d2 : Doc) : Doc :=
  let d3 := { d2 with
    status := STATUS_LOCK_HARD, reason := "License deactivated",
    grace_until := some now }
  if d3.activation_token ≠ "" then { d3 with activation_token := "" } else d3

/-- `deactivate_license` (lines 203–264).  `pre` is the preflight validate
outcome (consulted only when no token argument is supplied), `remote` the
`client.deactivate` outcome, `postv` the best-effort post-deactivation
validate outcome.  An `AttributeError` from `_apply_deactivation_update`
(list-shaped `data`, which bulk deactivation can return) is caught by the
generic `except Exception` branch before the token-clearing line; a raise
inside the post-deactivation `_apply_validation_update` is swallowed by the
inner try, keeping its partial mutations. -/
def deactivate_license_model (pd : String → Option Int) (now : Int) (doc : Doc)
    (token license_key : Option String)
    (pre : Except String JVal) (remote : RemoteOutcome)
    (postv : Except String JVal) : OpOutcome × Doc :=
  let lk := resolveKey doc license_key
  if lk = "" then (.thrown "License Key is required in settings or as parameter.", doc)
  else
    let d1 := deactivate_predoc pd doc token pre
    match remote with
    | .ok resp =>
        let payload := extract_data resp
        match apply_deactivation_update pd d1 payload with
        | none =>
            (.thrown exc_str,
              { d1 with
                status := STATUS_LOCK_HARD
                reason := "Deactivate unexpected error: " ++ exc_str
                grace_until := some now })
        | some d2 =>
            let d4 := deactivate_locked now d2
            let d5 :=
              match postv with
              | .ok v => (apply_validation_update pd now d4 (extract_data v)).doc
              | .error _ => d4
            let d6 := { d5 with
              status := STATUS_LOCK_HARD, reason := "License deactivated",
              grace_until := some now }
            (.ret payload, d6)
    | .contractFail m _ =>
        (.thrown "Operation failed. See log file or Error Log for details.",
          { d1 with
            status := STATUS_LOCK_HARD
            reason := "Deactivate failed: " ++ m
            grace_until := some now })
    | .requestFail m _ =>
        (.thrown "Operation failed. See log file or Error Log for details.",
          { d1 with
            status := STATUS_LOCK_HARD
            reason := "Deactivate failed: " ++ m
            grace_until := some now })
    | .unexpectedFail m =>
        (.thrown m,
          { d1 with
            status := STATUS_LOCK_HARD
            reason := "Deactivate unexpected error: " ++ m
            grace_until := some now })

/-- `scheduled_auto_validate` (lines 570–585): skip when the cross-process
lock is not acquired or no key is configured, else run `validate_license`
(whose state effects persist; its user-facing throw is swallowed). -/
def scheduled_auto_validate_model (pd : String → Option Int) (now : Int) (doc : Doc)
    (lockAcquired : Bool) (remote : RemoteOutcome) : Doc :=
  if !lockAcquired then doc
  else if doc.license_key = "" then doc
  else (validate_license_model pd now doc (some doc.license_key) remote).2

-- ---------------------------------------------------------------------
-- Frame lemmas about the update helpers
-- ---------------------------------------------------------------------

theorem apply_expiry_fields_activation_token (pd : String → Option Int) (doc : Doc)
    (data : JVal) :
    (apply_expiry_fields pd doc data).activation_token = doc.activation_token := by
  unfold apply_expiry_fields
  dsimp only
  split
  · split <;> first | rfl | (split <;> rfl)
  · rfl

theorem apply_expiry_fields_last_validated (pd : String → Option Int) (doc : Doc)
    (data : JVal) :
    (apply_expiry_fields pd doc data).last_validated = doc.last_validated := by
  unfold apply_expiry_fields
  dsimp only
  split
  · split <;> first | rfl | (split <;> rfl)
  · rfl

theorem apply_expiry_fields_status (pd : String → Option Int) (doc : Doc)
    (data : JVal) : (apply_expiry_fields pd doc data).status = doc.status := by
  unfold apply_expiry_fields
  dsimp only
  split
  · split <;> first | rfl | (split <;> rfl)
  · rfl

theorem apply_expiry_fields_grace_until (pd : String → Option Int) (doc : Doc)
    (data : JVal) :
    (apply_expiry_fields pd doc data).grace_until = doc.grace_until := by
  unfold apply_expiry_fields
  dsimp only
  split
  · split <;> first | rfl | (split <;> rfl)
  · rfl

theorem apply_expiry_fields_reason (pd : String → Option Int) (doc : Doc)
    (data : JVal) : (apply_expiry_fields pd doc data).reason = doc.reason := by
  unfold apply_expiry_fields
  dsimp only
  split
  · split <;> first | rfl | (split <;> rfl)
  · rfl

theorem apply_expiry_some_activation_token (pd : String → Option Int) (doc : Doc)
    (data : JVal) (d : Doc) (h : apply_expiry pd doc data = some d) :
    d.activation_token = doc.activation_token := by
  unfold apply_expiry at h
  cases data with
  | obj fs =>
      injection h with h2
      rw [← h2]
      exact apply_expiry_fields_activation_token pd doc (JVal.obj fs)
  | null => exact Option.noConfusion h
  | jbool b => exact Option.noConfusion h
  | num n => exact Option.noConfusion h
  | str s2 => exact Option.noConfusion h
  | arr xs => exact Option.noConfusion h

theorem apply_expiry_some_last_validated (pd : String → Option Int) (doc : Doc)
    (data : JVal) (d : Doc) (h : apply_expiry pd doc data = some d) :
    d.last_validated = doc.last_validated := by
  unfold apply_expiry at h
  cases data with
  | obj fs =>
      injection h with h2
      rw [← h2]
      exact apply_expiry_fields_last_validated pd doc (JVal.obj fs)
  | null => exact Option.noConfusion h
  | jbool b => exact Option.noConfusion h
  | num n => exact Option.noConfusion h
  | str s2 => exact Option.noConfusion h
  | arr xs => exact Option.noConfusion h

theorem clear_grace_activation_token (doc : Doc) :
    (clear_grace doc).activation_token = doc.activation_token := by
  unfold clear_grace
  dsimp only
  split <;> rfl

theorem clear_grace_last_validated (doc : Doc) :
    (clear_grace doc).last_validated = doc.last_validated := by
  unfold clear_grace
  dsimp only
  split <;> rfl

theorem clear_grace_grace_until (doc : Doc) :
    (clear_grace doc).grace_until = none := by
  unfold clear_grace
  dsimp only
  split <;> rfl

theorem clear_grace_expires_at (doc : Doc) :
    (clear_grace doc).expires_at = doc.expires_at := by
  unfold clear_grace
  dsimp only
  split <;> rfl

theorem apply_validation_normal_doc_token (now : Int) (d : Doc) (data : JVal) :
    (apply_validation_update.apply_validation_normal now d data).doc.activation_token =
      d.activation_token := by
  unfold apply_validation_update.apply_validation_normal
  split
  · simp [UpdResult.doc, clear_grace_activation_token]
  · split
    · simp [UpdResult.doc]
    · split <;> simp [UpdResult.doc, clear_grace_activation_token]

theorem apply_validation_update_doc_token (pd : String → Option Int)
    (now : Int) (doc : Doc) (data : JVal) :
    (apply_validation_update pd now doc data).doc.activation_token =
      doc.activation_token := by
  unfold apply_validation_update
  split
  · rfl
  · next d heq =>
      have hd := apply_expiry_some_activation_token pd doc data d heq
      split
      · split
        · simpa [UpdResult.doc] using hd
        · rw [apply_validation_normal_doc_token]
          exact hd
      · rw [apply_validation_normal_doc_token]
        exact hd

theorem apply_validation_update_ok_token (pd : String → Option Int)
    (now : Int) (doc : Doc) (data : JVal) (r : Doc)
    (h : apply_validation_update pd now doc data = .ok r) :
    r.activation_token = doc.activation_token := by
  have hd := apply_validation_update_doc_token pd now doc data
  rw [h] at hd
  simpa [UpdResult.doc] using hd

theorem apply_validation_update_raised_token (pd : String → Option Int)
    (now : Int) (doc : Doc) (data : JVal) (r : Doc)
    (h : apply_validation_update pd now doc data = .raised r) :
    r.activation_token = doc.activation_token := by
  have hd := apply_validation_update_doc_token pd now doc data
  rw [h] at hd
  simpa [UpdResult.doc] using hd

theorem apply_validation_update_ok_lv (pd : String → Option Int)
    (now : Int) (doc : Doc) (data : JVal) (r : Doc)
    (h : apply_validation_update pd now doc data = .ok r) :
    r.last_validated = some now := by
  unfold apply_validation_update apply_validation_update.apply_validation_normal at h
  revert h
  split
  · intro h
    exact UpdResult.noConfusion h
  · next d heq =>
      split
      · split
        · intro h
          injection h with h2
          rw [← h2]
        · split
          · intro h
            injection h with h2
            rw [← h2]
            simp [clear_grace_last_validated]
          · split
            · intro h
              exact UpdResult.noConfusion h
            · split <;> intro h <;> injection h with h2 <;> rw [← h2] <;>
                simp [clear_grace_last_validated]
      · split
        · intro h
          injection h with h2
          rw [← h2]
          simp [clear_grace_last_validated]
        · split
          · intro h
            exact UpdResult.noConfusion h
          · split <;> intro h <;> injection h with h2 <;> rw [← h2] <;>
              simp [clear_grace_last_validated]

theorem apply_validation_update_raised_lv (pd : String → Option Int)
    (now : Int) (doc : Doc) (data : JVal) (r : Doc)
    (h : apply_validation_update pd now doc data = .raised r) :
    r.last_validated = doc.last_validated := by
  unfold apply_validation_update apply_validation_update.apply_validation_normal at h
  revert h
  split
  · intro h
    injection h with h2
    rw [← h2]
  · next d heq =>
      have hd := apply_expiry_some_last_validated pd doc data d heq
      split
      · split
        · intro h
          exact UpdResult.noConfusion h
        · split
          · intro h
            exact UpdResult.noConfusion h
          · split
            · intro h
              injection h with h2
              rw [← h2]
              exact hd
            · split <;> intro h <;> exact UpdResult.noConfusion h
      · split
        · intro h
          exact UpdResult.noConfusion h
        · split
          · intro h
            injection h with h2
            rw [← h2]
            exact hd
          · split <;> intro h <;> exact UpdResult.noConfusion h

theorem apply_activation_update_some_token (pd : String → Option Int)
    (now : Int) (doc : Doc) (data : JVal) (d : Doc)
    (h : apply_activation_update pd now doc data = some d) :
    d.activation_token = doc.activation_token := by
  unfold apply_activation_update at h
  revert h
  split
  · intro h
    exact Option.noConfusion h
  · next d0 heq =>
      intro h
      injection h with h2
      rw [← h2]
      rw [clear_grace_activation_token]
      exact apply_expiry_some_activation_token pd doc data d0 heq

theorem apply_activation_update_some_lv (pd : String → Option Int)
    (now : Int) (doc : Doc) (data : JVal) (d : Doc)
    (h : apply_activation_update pd now doc data = some d) :
    d.last_validated = some now := by
  unfold apply_activation_update at h
  revert h
  split
  · intro h
    exact Option.noConfusion h
  · intro h
    injection h with h2
    rw [← h2]
    simp [clear_grace_last_validated]

theorem apply_deactivation_update_some_lv (pd : String → Option Int)
    (doc : Doc) (data : JVal) (d : Doc)
    (h : apply_deactivation_update pd doc data = some d) :
    d.last_validated = doc.last_validated := by
  unfold apply_deactivation_update at h
  revert h
  split
  · intro h
    exact Option.noConfusion h
  · next d0 heq =>
      intro h
      injection h with h2
      rw [← h2]
      exact apply_expiry_some_last_validated pd doc data d0 heq

theorem maybe_update_token_last_validated (pd : String → Option Int) (doc : Doc)
    (payload : JVal) :
    (maybe_update_token_from_payload pd doc payload).2.last_validated = doc.last_validated := by
  unfold maybe_update_token_from_payload
  dsimp only
  split
  · rfl
  · split
    · rfl
    · split <;> rfl

theorem maybe_update_token_status (pd : String → Option Int) (doc : Doc)
    (payload : JVal) :
    (maybe_update_token_from_payload pd doc payload).2.status = doc.status := by
  unfold maybe_update_token_from_payload
  dsimp only
  split
  · rfl
  · split
    · rfl
    · split <;> rfl

theorem maybe_update_token_grace_until (pd : String → Option Int) (doc : Doc)
    (payload : JVal) :
    (maybe_update_token_from_payload pd doc payload).2.grace_until = doc.grace_until := by
  unfold maybe_update_token_from_payload
  dsimp only
  split
  · rfl
  · split
    · rfl
    · split <;> rfl

theorem preflight_last_validated (pd : String → Option Int) (doc : Doc)
    (res : Except String JVal) :
    (preflight_refresh_token pd doc res).last_validated = doc.last_validated := by
  unfold preflight_refresh_token
  dsimp only
  split
  · rfl
  · split <;> simp [maybe_update_token_last_validated]

/-- The token-update step only ever writes a non-empty token: an empty token
after the step means the token was already empty before it. -/
theorem maybe_update_token_nonempty (pd : String → Option Int) (doc : Doc)
    (payload : JVal)
    (h : (maybe_update_token_from_payload pd doc payload).2.activation_token = "") :
    doc.activation_token = "" := by
  unfold maybe_update_token_from_payload at h
  revert h
  dsimp only
  split
  · exact fun h => h
  · next latest heq =>
    split
    · exact fun h => h
    · next hne =>
      split
      · intro h
        simp at h
        exact absurd h hne
      · exact fun h => h

-- ---------------------------------------------------------------------
-- C3: grace-degradation boundaries
-- ---------------------------------------------------------------------

theorem grace_status_of_delta (now last : Int) (doc : Doc) (err : String) :
    (apply_grace_on_failure now { doc with last_validated := some last } err).status =
      (if ((now - last : Int) : ℚ) / 3600 ≤ 24 then STATUS_GRACE_SOFT
       else if ((now - last : Int) : ℚ) / 3600 ≥ 48 then STATUS_LOCK_HARD
       else STATUS_GRACE_SOFT) := by
  rfl

/-- C3: for every failed validate call, an unset `last_validated` yields
`GRACE_SOFT` with `grace_until = now`; with `delta_hours` = elapsed wall-clock
hours since `last_validated`, `delta_hours = 24` yields `GRACE_SOFT`,
`47.5` yields `GRACE_SOFT`, `48` yields `LOCK_HARD`, `50` yields `LOCK_HARD`;
and in every case `grace_until` is set to `now` and the reason becomes
`"Grace policy engaged: <original error>"`. -/
theorem grace_degradation_boundaries (now : Int) (doc : Doc) (err : String) :
    ((apply_grace_on_failure now { doc with last_validated := none } err).status
        = STATUS_GRACE_SOFT
      ∧ (apply_grace_on_failure now { doc with last_validated := none } err).grace_until
        = some now)
  ∧ (apply_grace_on_failure now { doc with last_validated := some (now - 86400) } err).status
      = STATUS_GRACE_SOFT
  ∧ (apply_grace_on_failure now { doc with last_validated := some (now - 171000) } err).status
      = STATUS_GRACE_SOFT
  ∧ (apply_grace_on_failure now { doc with last_validated := some (now - 172800) } err).status
      = STATUS_LOCK_HARD
  ∧ (apply_grace_on_failure now { doc with last_validated := some (now - 180000) } err).status
      = STATUS_LOCK_HARD
  ∧ (apply_grace_on_failure now doc err).grace_until = some now
  ∧ (apply_grace_on_failure now doc err).reason = "Grace policy engaged: " ++ err := by
  refine ⟨⟨rfl, rfl⟩, ?_, ?_, ?_, ?_, ?_, ?_⟩
  · rw [grace_status_of_delta]
    have h : now - (now - 86400) = (86400 : Int) := by ring
    rw [h]
    norm_num
  · rw [grace_status_of_delta]
    have h : now - (now - 171000) = (171000 : Int) := by ring
    rw [h]
    norm_num
  · rw [grace_status_of_delta]
    have h : now - (now - 172800) = (172800 : Int) := by ring
    rw [h]
    norm_num
  · rw [grace_status_of_delta]
    have h : now - (now - 180000) = (180000 : Int) := by ring
    rw [h]
    norm_num
  · unfold apply_grace_on_failure
    dsimp only
    split <;> rfl
  · unfold apply_grace_on_failure
    dsimp only
    split <;> rfl

-- ---------------------------------------------------------------------
-- C10: token preservation
-- ---------------------------------------------------------------------

theorem apply_grace_activation_token (now : Int) (doc : Doc) (err : String) :
    (apply_grace_on_failure now doc err).activation_token = doc.activation_token := by
  unfold apply_grace_on_failure
  dsimp only
  split <;> rfl

theorem apply_grace_last_validated (now : Int) (doc : Doc) (err : String) :
    (apply_grace_on_failure now doc err).last_validated = doc.last_validated := by
  unfold apply_grace_on_failure
  dsimp only
  split <;> rfl

theorem preflight_token_nonempty (pd : String → Option Int) (doc : Doc)
    (res : Except String JVal)
    (h : (preflight_refresh_token pd doc res).activation_token = "") :
    doc.activation_token = "" := by
  unfold preflight_refresh_token at h
  revert h
  dsimp only
  split
  · exact fun h => h
  · split
    · intro h
      exact maybe_update_token_nonempty pd doc _ h
    · intro h
      exact maybe_update_token_nonempty pd doc _ h

/-- C10: a payload from which the selector yields no token leaves the
token-update step inert (`False`, document unchanged); and none of the
token-adopting flows (activate success effects, validate, activate, silent
preflight) can turn a non-empty stored token into an empty one. -/
theorem token_preservation_frame (pd pe : String → Option Int) (now : Int)
    (doc : Doc) (payload : JVal) :
    (extract_latest_token pd payload = none →
      maybe_update_token_from_payload pd doc payload = (false, doc))
  ∧ ((maybe_update_token_from_payload pd doc payload).2.activation_token = "" →
      doc.activation_token = "")
  ∧ (∀ resp, (activate_via_client pd now doc resp).1.activation_token = "" →
      doc.activation_token = "")
  ∧ (∀ lkp remote, (validate_license_model pd now doc lkp remote).2.activation_token = "" →
      doc.activation_token = "")
  ∧ (∀ lkp tokp remote,
      (activate_license_model pd pe now doc lkp tokp remote).2.activation_token = "" →
      doc.activation_token = "")
  ∧ (∀ res, (preflight_refresh_token pd doc res).activation_token = "" →
      doc.activation_token = "") := by
  refine ⟨?_, maybe_update_token_nonempty pd doc payload, ?_, ?_, ?_, ?_⟩
  · intro h
    unfold maybe_update_token_from_payload
    rw [h]
  · intro resp h
    unfold activate_via_client at h
    revert h
    dsimp only
    cases hu : apply_activation_update pd now doc (extract_data resp) with
    | none =>
        dsimp only
        exact fun h => h
    | some d1 =>
        dsimp only
        intro h
        have h2 := maybe_update_token_nonempty _ _ _ h
        rwa [apply_activation_update_some_token pd now doc _ d1 hu] at h2
  · intro lkp remote h
    unfold validate_license_model at h
    revert h
    dsimp only
    split
    · exact fun h => h
    · match remote with
      | .ok resp =>
          dsimp only
          cases hu : apply_validation_update pd now doc (extract_data resp) with
          | ok d1 =>
              dsimp only
              intro h
              have h2 := maybe_update_token_nonempty _ _ _ h
              rwa [apply_validation_update_ok_token pd now doc _ d1 hu] at h2
          | raised d1 =>
              dsimp only
              intro h
              rw [apply_grace_activation_token] at h
              rwa [apply_validation_update_raised_token pd now doc _ d1 hu] at h
      | .contractFail m p =>
          dsimp only
          intro h
          rwa [apply_grace_activation_token] at h
      | .requestFail m p =>
          dsimp only
          intro h
          rwa [apply_grace_activation_token] at h
      | .unexpectedFail m =>
          dsimp only
          intro h
          rwa [apply_grace_activation_token] at h
  · intro lkp tokp remote h
    unfold activate_license_model at h
    revert h
    dsimp only
    split
    · exact fun h => h
    · match remote with
      | .ok resp =>
          dsimp only
          cases hu : apply_activation_update pd now doc (extract_data resp) with
          | none =>
              dsimp only
              exact fun h => h
          | some d1 =>
              dsimp only
              intro h
              have h2 := maybe_update_token_nonempty _ _ _ h
              rwa [apply_activation_update_some_token pd now doc _ d1 hu] at h2
      | .contractFail m p =>
          dsimp only
          unfold activate_license_model.activate_license_err
          dsimp only
          split
          · intro h
            revert h
            split <;> exact fun h => h
          · exact fun h => h
      | .requestFail m p =>
          dsimp only
          unfold activate_license_model.activate_license_err
          dsimp only
          split
          · intro h
            revert h
            split <;> exact fun h => h
          · exact fun h => h
      | .unexpectedFail m =>
          dsimp only
          exact fun h => h
  · exact fun res => preflight_token_nonempty pd doc res

/-- Witness for `token_preservation_frame` at a concrete inert payload. -/
theorem token_preservation_frame_witness :
    extract_latest_token (fun _ => none) JVal.null = none ∧
    maybe_update_token_from_payload (fun _ => none) Doc.empty JVal.null =
      (false, Doc.empty) :=
  ⟨rfl, (token_preservation_frame (fun _ => none) (fun _ => none) 0 Doc.empty JVal.null).1 rfl⟩

-- ---------------------------------------------------------------------
-- C8: activate idempotency guard
-- ---------------------------------------------------------------------

theorem getEntry_setEntry (l : List (String × Int)) (k : String) (v : Int) :
    getEntry (setEntry l k v) k = some v := by
  induction l with
  | nil => simp [setEntry, getEntry]
  | cons p rest ih =>
      obtain ⟨k1, v1⟩ := p
      unfold setEntry
      by_cases hk : k1 = k
      · simp [hk, getEntry]
      · simp only [if_neg hk]
        unfold getEntry
        simp [hk, ih]

/-- C8: with an available lock store and a free lock key, a first activate
call proceeds to the network, and a second call with the same
`(license_key, token)` within the idempotency window fails with the
409 `RequestError` before any network call; with an unavailable lock store
the guard fails open and the call proceeds to the network. -/
theorem activate_idempotency_guard (st : LockStore) (t t2 w : Int)
    (lk : String) (tok : Option String)
    (havail : st.available = true)
    (hkey : licenseKeyOk lk = true)
    (htok : ∀ s, tok = some s → tokenFormatOk s = true)
    (hfree : getEntry st.entries (activateLockKey lk tok) = none)
    (ht2w : t2 < t + w) :
    (client_activate_guard st t lk tok w).1 = GuardResult.network
  ∧ (client_activate_guard (client_activate_guard st t lk tok w).2 t2 lk tok w).1 =
      GuardResult.blocked "Duplicate activate blocked by idempotency guard" 409
  ∧ (∀ st2 : LockStore, st2.available = false →
      (client_activate_guard st2 t lk tok w).1 = GuardResult.network) := by
  have validStep : ∀ (st3 : LockStore) (t3 : Int),
      client_activate_guard st3 t3 lk tok w =
        client_activate_guard.runGuard st3 t3 lk tok w := by
    intro st3 t3
    unfold client_activate_guard
    cases tok with
    | none => simp [hkey]
    | some s => simp [hkey, htok s rfl]
  have h1 : client_activate_guard st t lk tok w =
      (GuardResult.network,
        ⟨true, setEntry st.entries (activateLockKey lk tok) (t + w)⟩) := by
    rw [validStep]
    unfold client_activate_guard.runGuard frappe_cache_setnx
    simp [havail, hfree]
  refine ⟨?_, ?_, ?_⟩
  · rw [h1]
  · rw [h1]
    rw [validStep]
    unfold client_activate_guard.runGuard frappe_cache_setnx
    dsimp only
    rw [getEntry_setEntry st.entries (activateLockKey lk tok) (t + w)]
    simp [ht2w]
  · intro st2 hun
    rw [validStep]
    unfold client_activate_guard.runGuard frappe_cache_setnx
    rw [hun]
    simp

/-- Witness for `activate_idempotency_guard` on a fresh available store. -/
theorem activate_idempotency_guard_witness :
    ((⟨true, []⟩ : LockStore).available = true
      ∧ licenseKeyOk "ABCDE-12345" = true
      ∧ getEntry (⟨true, []⟩ : LockStore).entries (activateLockKey "ABCDE-12345" none) = none)
  ∧ ((client_activate_guard ⟨true, []⟩ 0 "ABCDE-12345" none 8).1 = GuardResult.network
      ∧ (client_activate_guard
          (client_activate_guard ⟨true, []⟩ 0 "ABCDE-12345" none 8).2 0 "ABCDE-12345" none 8).1 =
            GuardResult.blocked "Duplicate activate blocked by idempotency guard" 409
      ∧ (∀ st2 : LockStore, st2.available = false →
          (client_activate_guard st2 0 "ABCDE-12345" none 8).1 = GuardResult.network)) :=
  ⟨⟨rfl, by decide, rfl⟩,
    activate_idempotency_guard ⟨true, []⟩ 0 0 8 "ABCDE-12345" none rfl (by decide)
      (fun s h => by cases h) rfl (by decide)⟩

-- ---------------------------------------------------------------------
-- C2: token selector
-- ---------------------------------------------------------------------

theorem scLt_irrefl (a : Nat × Int) : ¬ scLt a a := by
  unfold scLt
  simp

theorem scLt_trans {a b c : Nat × Int} (h1 : scLt a b) (h2 : scLt b c) : scLt a c := by
  unfold scLt at h1 h2 ⊢
  rcases h1 with h1 | ⟨h1e, h1l⟩
  · rcases h2 with h2 | ⟨h2e, h2l⟩
    · exact Or.inl (h1.trans h2)
    · exact Or.inl (h2e ▸ h1)
  · rcases h2 with h2 | ⟨h2e, h2l⟩
    · exact Or.inl (h1e ▸ h2)
    · exact Or.inr ⟨h1e.trans h2e, h1l.trans h2l⟩

theorem scLt_total (a b : Nat × Int) : scLt a b ∨ a = b ∨ scLt b a := by
  unfold scLt
  rcases lt_trichotomy a.1 b.1 with h | h | h
  · exact Or.inl (Or.inl h)
  · rcases lt_trichotomy a.2 b.2 with h2 | h2 | h2
    · exact Or.inl (Or.inr ⟨h, h2⟩)
    · exact Or.inr (Or.inl (Prod.ext h h2))
    · exact Or.inr (Or.inr (Or.inr ⟨h.symm, h2⟩))
  · exact Or.inr (Or.inr (Or.inl h))

/-- `max(candidates, key=score)` returns the first score-maximal element:
the chosen element splits the list into a strictly-dominated prefix and a
tail it is not dominated by. -/
theorem maxBy_first_max (f : JVal → Nat × Int) :
    ∀ (xs : List JVal) (x : JVal),
      (∃ l1 l2, x :: xs = l1 ++ maxBy f x xs :: l2
        ∧ (∀ y ∈ l1, scLt (f y) (f (maxBy f x xs))))
      ∧ (∀ y ∈ x :: xs, ¬ scLt (f (maxBy f x xs)) (f y)) := by
  intro xs
  induction xs with
  | nil =>
      intro x
      refine ⟨⟨[], [], rfl, by simp⟩, ?_⟩
      intro y hy
      simp only [List.mem_singleton] at hy
      subst hy
      exact scLt_irrefl _
  | cons y ys ih =>
      intro x
      have hstep : maxBy f x (y :: ys) = maxBy f (if scLt (f x) (f y) then y else x) ys := rfl
      by_cases h : scLt (f x) (f y)
      · rw [hstep, if_pos h]
        obtain ⟨⟨l1, l2, hdec, hdom⟩, hmax⟩ := ih y
        have hxb : scLt (f x) (f (maxBy f y ys)) := by
          have hby : ¬ scLt (f (maxBy f y ys)) (f y) := hmax y (List.mem_cons_self y ys)
          rcases scLt_total (f y) (f (maxBy f y ys)) with hc | hc | hc
          · exact scLt_trans h hc
          · exact hc ▸ h
          · exact absurd hc hby
        refine ⟨⟨x :: l1, l2, ?_, ?_⟩, ?_⟩
        · simpa using congrArg (List.cons x) hdec
        · intro z hz
          rcases List.mem_cons.mp hz with hz | hz
          · exact hz ▸ hxb
          · exact hdom z hz
        · intro z hz
          rcases List.mem_cons.mp hz with hz | hz
          · subst hz
            intro hbad
            exact hmax y (List.mem_cons_self y ys) (scLt_trans hbad h)
          · exact hmax z hz
      · rw [hstep, if_neg h]
        obtain ⟨⟨l1, l2, hdec, hdom⟩, hmax⟩ := ih x
        cases l1 with
        | nil =>
            simp only [List.nil_append] at hdec
            have hbx : maxBy f x ys = x := (List.cons.inj hdec).1.symm
            have hl2 : l2 = ys := (List.cons.inj hdec).2.symm
            refine ⟨⟨[], y :: ys, ?_, by simp⟩, ?_⟩
            · simp [hbx]
            · intro z hz
              rcases List.mem_cons.mp hz with hz | hz
              · subst hz
                rw [hbx]
                exact scLt_irrefl _
              · rcases List.mem_cons.mp hz with hz | hz
                · subst hz
                  rw [hbx]
                  exact h
                · exact hmax z (List.mem_cons_of_mem x hz)
        | cons w l1t =>
            simp only [List.cons_append] at hdec
            have hwx : w = x := (List.cons.inj hdec).1.symm
            have htail : ys = l1t ++ maxBy f x ys :: l2 := (List.cons.inj hdec).2
            have hxb : scLt (f x) (f (maxBy f x ys)) := by
              have := hdom w (List.mem_cons_self w l1t)
              rwa [hwx] at this
            have hyb : scLt (f y) (f (maxBy f x ys)) := by
              rcases scLt_total (f x) (f y) with hc | hc | hc
              · exact absurd hc h
              · exact hc ▸ hxb
              · exact scLt_trans hc hxb
            refine ⟨⟨x :: y :: l1t, l2, ?_, ?_⟩, ?_⟩
            · rw [List.cons_append, List.cons_append]
              exact congrArg (fun l => x :: y :: l) htail
            · intro z hz
              rcases List.mem_cons.mp hz with hz | hz
              · exact hz ▸ hxb
              · rcases List.mem_cons.mp hz with hz | hz
                · exact hz ▸ hyb
                · exact hdom z (List.mem_cons_of_mem w hz)
            · intro z hz
              rcases List.mem_cons.mp hz with hz | hz
              · exact hz ▸ hmax x (List.mem_cons_self x ys)
              · rcases List.mem_cons.mp hz with hz | hz
                · subst hz
                  intro hbad
                  exact scLt_irrefl _ (scLt_trans hbad hyb)
                · exact hmax z (List.mem_cons_of_mem x hz)

theorem isCandidate_token_truthy (x : JVal) (h : isCandidate x = true) :
    (x.getd "token").truthy = true := by
  unfold isCandidate at h
  revert h
  cases x <;> simp

/-- C2: for every response whose activation data is a list, the selector
returns null exactly when no entry has a non-empty token; otherwise it
returns the token of the first maximum under the lexicographic
`(is_active, recency)` score — so the chosen entry is a candidate, no
candidate strictly outranks it, every candidate before it in the original
order is strictly outranked (stability), and if any candidate is still
active the chosen one is active. -/
theorem token_selector_spec (pd : String → Option Int) (payload : JVal)
    (items : List JVal)
    (hlist : activation_data_of payload = JVal.arr items) :
    (extract_latest_token pd payload = none ↔ items.filter isCandidate = [])
  ∧ (∀ c cs, items.filter isCandidate = c :: cs →
      extract_latest_token pd payload =
        some (pyStrip ((maxBy (score pd) c cs).getd "token").pyStr)
      ∧ maxBy (score pd) c cs ∈ c :: cs
      ∧ (∀ y ∈ c :: cs, ¬ scLt (score pd (maxBy (score pd) c cs)) (score pd y))
      ∧ (∃ l1 l2, c :: cs = l1 ++ maxBy (score pd) c cs :: l2
          ∧ ∀ y ∈ l1, scLt (score pd y) (score pd (maxBy (score pd) c cs)))
      ∧ ((∃ y ∈ c :: cs, ((y.getd "deactivated_at").truthy = false)) →
          ((maxBy (score pd) c cs).getd "deactivated_at").truthy = false)) := by
  have extract_eq : ∀ c cs, items.filter isCandidate = c :: cs →
      extract_latest_token pd payload =
        some (pyStrip ((maxBy (score pd) c cs).getd "token").pyStr) := by
    intro c cs hf
    have hne : items.isEmpty = false := by
      cases items with
      | nil => simp at hf
      | cons a as => rfl
    have hbest := maxBy_first_max (score pd) cs c
    obtain ⟨⟨l1, l2, hdec, _⟩, _⟩ := hbest
    have hmem : maxBy (score pd) c cs ∈ c :: cs := by
      rw [hdec]
      exact List.mem_append_right l1 (List.mem_cons_self _ _)
    have hcand : isCandidate (maxBy (score pd) c cs) = true := by
      have : maxBy (score pd) c cs ∈ items.filter isCandidate := hf ▸ hmem
      exact (List.mem_filter.mp this).2
    unfold extract_latest_token
    rw [hlist]
    dsimp only
    rw [hne]
    rw [hf]
    dsimp only
    rw [isCandidate_token_truthy _ hcand]
    simp
  constructor
  · constructor
    · intro hnone
      by_contra hcs
      obtain ⟨c, cs, hf⟩ : ∃ c cs, items.filter isCandidate = c :: cs := by
        cases hfe : items.filter isCandidate with
        | nil => exact absurd hfe hcs
        | cons c cs => exact ⟨c, cs, rfl⟩
      rw [extract_eq c cs hf] at hnone
      exact Option.noConfusion hnone
    · intro hf
      have hnil : items = [] ∨ items ≠ [] := em _
      unfold extract_latest_token
      rw [hlist]
      dsimp only
      cases items with
      | nil => rfl
      | cons a as =>
          rw [show (a :: as).filter isCandidate = [] from hf]
          rfl
  · intro c cs hf
    have hbest := maxBy_first_max (score pd) cs c
    obtain ⟨⟨l1, l2, hdec, hdom⟩, hmax⟩ := hbest
    have hmem : maxBy (score pd) c cs ∈ c :: cs := by
      rw [hdec]
      exact List.mem_append_right l1 (List.mem_cons_self _ _)
    refine ⟨extract_eq c cs hf, hmem, hmax, ⟨l1, l2, hdec, hdom⟩, ?_⟩
    rintro ⟨y, hy, hyact⟩
    by_contra hb
    have hb2 : ((maxBy (score pd) c cs).getd "deactivated_at").truthy = true := by
      revert hb
      cases ((maxBy (score pd) c cs).getd "deactivated_at").truthy <;> simp
    have h1 : (score pd (maxBy (score pd) c cs)).1 = 0 := by
      simp [score, hb2]
    have h2 : (score pd y).1 = 1 := by
      simp [score, hyact]
    exact hmax y hy (Or.inl (by rw [h1, h2]; norm_num))

/-- Witness for `token_selector_spec`: an active old entry beats a
deactivated newer one. -/
theorem token_selector_spec_witness :
    (activation_data_of (JVal.obj [("data", JVal.obj [("activationData", JVal.arr
        [JVal.obj [("token", JVal.str "old"), ("deactivated_at", JVal.null),
           ("updated_at", JVal.str "5")],
         JVal.obj [("token", JVal.str "dead"), ("deactivated_at", JVal.str "x"),
           ("updated_at", JVal.str "99")]])])])
      = JVal.arr
        [JVal.obj [("token", JVal.str "old"), ("deactivated_at", JVal.null),
           ("updated_at", JVal.str "5")],
         JVal.obj [("token", JVal.str "dead"), ("deactivated_at", JVal.str "x"),
           ("updated_at", JVal.str "99")]])
  ∧ ((extract_latest_token (fun s => s.toInt?) (JVal.obj [("data", JVal.obj [("activationData", JVal.arr
        [JVal.obj [("token", JVal.str "old"), ("deactivated_at", JVal.null),
           ("updated_at", JVal.str "5")],
         JVal.obj [("token", JVal.str "dead"), ("deactivated_at", JVal.str "x"),
           ("updated_at", JVal.str "99")]])])]) = none)
      ↔ ([JVal.obj [("token", JVal.str "old"), ("deactivated_at", JVal.null),
           ("updated_at", JVal.str "5")],
          JVal.obj [("token", JVal.str "dead"), ("deactivated_at", JVal.str "x"),
           ("updated_at", JVal.str "99")]].filter isCandidate = [])) :=
  ⟨rfl, (token_selector_spec (fun s => s.toInt?)
    (JVal.obj [("data", JVal.obj [("activationData", JVal.arr
        [JVal.obj [("token", JVal.str "old"), ("deactivated_at", JVal.null),
           ("updated_at", JVal.str "5")],
         JVal.obj [("token", JVal.str "dead"), ("deactivated_at", JVal.str "x"),
           ("updated_at", JVal.str "99")]])])])
    [JVal.obj [("token", JVal.str "old"), ("deactivated_at", JVal.null),
       ("updated_at", JVal.str "5")],
     JVal.obj [("token", JVal.str "dead"), ("deactivated_at", JVal.str "x"),
       ("updated_at", JVal.str "99")]] rfl).1⟩

-- ---------------------------------------------------------------------
-- C1: shared success update rule
-- ---------------------------------------------------------------------

theorem clear_grace_of_status_ne (doc : Doc) (s : String) (hs : doc.status = s)
    (h1 : s ≠ STATUS_GRACE_SOFT) (h2 : s ≠ STATUS_LOCK_HARD) :
    clear_grace doc = { doc with grace_until := none } := by
  unfold clear_grace
  dsimp only
  rw [if_neg]
  rw [hs]
  simp [h1, h2]

theorem apply_validation_normal_active (now : Int) (d : Doc) (data : JVal)
    (hact : has_active_activation data = true) :
    apply_validation_update.apply_validation_normal now d data =
      .ok { d with
        status := STATUS_VALIDATED
        reason := "Validated"
        grace_until := none
        last_validated := some now } := by
  unfold apply_validation_update.apply_validation_normal
  rw [hact, if_pos rfl]
  rw [clear_grace_of_status_ne _ STATUS_VALIDATED rfl (by decide) (by decide)]

theorem apply_validation_normal_int (now : Int) (d : Doc) (data : JVal) (n : Int)
    (hact : has_active_activation data = false)
    (hn : timesActivatedInt data = some n) :
    apply_validation_update.apply_validation_normal now d data =
      .ok (if n > 0 then
          { d with
            status := STATUS_VALIDATED
            reason := "Validated"
            grace_until := none
            last_validated := some now }
        else
          { d with
            status := STATUS_DEACTIVATED
            reason := "Validated (no active activation)"
            grace_until := none
            last_validated := some now }) := by
  unfold apply_validation_update.apply_validation_normal
  rw [hact, if_neg (show ¬ (false = true) by decide), hn]
  dsimp only
  by_cases hpos : n > 0
  · rw [if_pos hpos, if_pos hpos]
    rw [clear_grace_of_status_ne _ STATUS_VALIDATED rfl (by decide) (by decide)]
  · rw [if_neg hpos, if_neg hpos]
    rw [clear_grace_of_status_ne _ STATUS_DEACTIVATED rfl (by decide) (by decide)]

theorem apply_validation_normal_raise (now : Int) (d : Doc) (data : JVal)
    (hact : has_active_activation data = false)
    (hn : timesActivatedInt data = none) :
    apply_validation_update.apply_validation_normal now d data = .raised d := by
  unfold apply_validation_update.apply_validation_normal
  rw [hact, if_neg (show ¬ (false = true) by decide), hn]

/-- C1: on a dict-shaped success payload the shared update rule first adopts
a returned non-empty `expiresAt` string; if the resulting `expires_at` is in
the past it stops with `EXPIRED`, preserving a non-empty reason, setting
`grace_until = now` only when unset, and stamping `last_validated = now`,
regardless of the prior status; otherwise it sets `VALIDATED` with reason
"Validated" precisely when some activation record is active, or — the `or`
short-circuit — when none is and `timesActivated` converts to a positive
int (else `DEACTIVATED`, "Validated (no active activation)"), stamps
`last_validated = now` and clears `grace_until`; in particular a record
starting in `EXPIRED` whose response carries a future `expiresAt` and an
active activation record ends `VALIDATED` with no grace and the new expiry
applied.  A list-shaped payload, or an inactive dict payload whose
`timesActivated` does not convert, makes the helper raise instead, keeping
only the mutations already applied. -/
theorem shared_success_update_rule (pd : String → Option Int) (now : Int)
    (doc : Doc) (ds : List (String × JVal)) :
    apply_expiry pd doc (JVal.obj ds) =
        some (apply_expiry_fields pd doc (JVal.obj ds))
  ∧ (∀ xs, apply_validation_update pd now doc (JVal.arr xs) = .raised doc)
  ∧ (∀ s t, (JVal.obj ds).getd "expiresAt" = JVal.str s → s ≠ "" →
        pd s = some t →
        (apply_expiry_fields pd doc (JVal.obj ds)).expires_at = some t)
  ∧ (∀ ex, (apply_expiry_fields pd doc (JVal.obj ds)).expires_at = some ex →
        now > ex →
        apply_validation_update pd now doc (JVal.obj ds) =
          .ok { apply_expiry_fields pd doc (JVal.obj ds) with
            status := STATUS_EXPIRED
            reason := if (apply_expiry_fields pd doc (JVal.obj ds)).reason ≠ ""
              then (apply_expiry_fields pd doc (JVal.obj ds)).reason
              else "License expired"
            grace_until :=
              if (apply_expiry_fields pd doc (JVal.obj ds)).grace_until.isSome
              then (apply_expiry_fields pd doc (JVal.obj ds)).grace_until
              else some now
            last_validated := some now })
  ∧ (((apply_expiry_fields pd doc (JVal.obj ds)).expires_at = none ∨
        (∃ ex, (apply_expiry_fields pd doc (JVal.obj ds)).expires_at = some ex ∧
          ¬ now > ex)) →
        (has_active_activation (JVal.obj ds) = true →
          apply_validation_update pd now doc (JVal.obj ds) =
            .ok { apply_expiry_fields pd doc (JVal.obj ds) with
              status := STATUS_VALIDATED
              reason := "Validated"
              grace_until := none
              last_validated := some now })
      ∧ (∀ n, has_active_activation (JVal.obj ds) = false →
            timesActivatedInt (JVal.obj ds) = some n →
            apply_validation_update pd now doc (JVal.obj ds) =
              .ok (if n > 0 then
                  { apply_expiry_fields pd doc (JVal.obj ds) with
                    status := STATUS_VALIDATED
                    reason := "Validated"
                    grace_until := none
                    last_validated := some now }
                else
                  { apply_expiry_fields pd doc (JVal.obj ds) with
                    status := STATUS_DEACTIVATED
                    reason := "Validated (no active activation)"
                    grace_until := none
                    last_validated := some now }))
      ∧ (has_active_activation (JVal.obj ds) = false →
            timesActivatedInt (JVal.obj ds) = none →
            apply_validation_update pd now doc (JVal.obj ds) =
              .raised (apply_expiry_fields pd doc (JVal.obj ds))))
  ∧ (doc.status = STATUS_EXPIRED →
      ∀ ex, (apply_expiry_fields pd doc (JVal.obj ds)).expires_at = some ex →
        ¬ now > ex → has_active_activation (JVal.obj ds) = true →
        apply_validation_update pd now doc (JVal.obj ds) =
          .ok { apply_expiry_fields pd doc (JVal.obj ds) with
            status := STATUS_VALIDATED
            reason := "Validated"
            grace_until := none
            last_validated := some now }) := by
  have hobj : apply_expiry pd doc (JVal.obj ds) =
      some (apply_expiry_fields pd doc (JVal.obj ds)) := rfl
  have hstep : ((apply_expiry_fields pd doc (JVal.obj ds)).expires_at = none ∨
        (∃ ex, (apply_expiry_fields pd doc (JVal.obj ds)).expires_at = some ex ∧
          ¬ now > ex)) →
      apply_validation_update pd now doc (JVal.obj ds) =
        apply_validation_update.apply_validation_normal now
          (apply_expiry_fields pd doc (JVal.obj ds)) (JVal.obj ds) := by
    intro hdisj
    unfold apply_validation_update
    rw [hobj]
    dsimp only
    rcases hdisj with hnone | ⟨ex, hex, hnot⟩
    · rw [hnone]
    · rw [hex]
      dsimp only
      rw [if_neg hnot]
  refine ⟨hobj, ?_, ?_, ?_, ?_, ?_⟩
  · intro xs
    unfold apply_validation_update
    rfl
  · intro s t hs hns ht
    unfold apply_expiry_fields
    rw [hs]
    dsimp only
    have htr : (JVal.str s).truthy = true := by
      simp [JVal.truthy, hns]
    rw [htr]
    simp [ht]
  · intro ex hex hnow
    unfold apply_validation_update
    rw [hobj]
    dsimp only
    rw [hex]
    dsimp only
    rw [if_pos hnow]
  · intro hdisj
    refine ⟨?_, ?_, ?_⟩
    · intro hact
      rw [hstep hdisj]
      exact apply_validation_normal_active now _ _ hact
    · intro n hactf hn
      rw [hstep hdisj]
      exact apply_validation_normal_int now _ _ n hactf hn
    · intro hactf hn
      rw [hstep hdisj]
      exact apply_validation_normal_raise now _ _ hactf hn
  · intro _ ex hex hnot hact
    rw [hstep (Or.inr ⟨ex, hex, hnot⟩)]
    exact apply_validation_normal_active now _ _ hact

/-- Witness for `shared_success_update_rule`: expiry recovery from
`EXPIRED` when the server extends the date and an activation is active. -/
theorem shared_success_update_rule_witness :
    ({ Doc.empty with status := STATUS_EXPIRED, expires_at := some 10, grace_until := some 5 } : Doc).status = STATUS_EXPIRED
  ∧ (apply_expiry_fields (fun s => if s = "500" then some 500 else none)
      { Doc.empty with status := STATUS_EXPIRED, expires_at := some 10, grace_until := some 5 }
      (JVal.obj [("expiresAt", JVal.str "500"),
        ("activationData", JVal.arr [JVal.obj [("token", JVal.str "t"),
          ("deactivated_at", JVal.null)]])])).expires_at = some 500
  ∧ ¬ (100 : Int) > 500
  ∧ has_active_activation (JVal.obj [("expiresAt", JVal.str "500"),
        ("activationData", JVal.arr [JVal.obj [("token", JVal.str "t"),
          ("deactivated_at", JVal.null)]])]) = true
  ∧ apply_validation_update (fun s => if s = "500" then some 500 else none) 100
      { Doc.empty with status := STATUS_EXPIRED, expires_at := some 10, grace_until := some 5 }
      (JVal.obj [("expiresAt", JVal.str "500"),
        ("activationData", JVal.arr [JVal.obj [("token", JVal.str "t"),
          ("deactivated_at", JVal.null)]])]) =
      .ok { apply_expiry_fields (fun s => if s = "500" then some 500 else none)
          { Doc.empty with status := STATUS_EXPIRED, expires_at := some 10, grace_until := some 5 }
          (JVal.obj [("expiresAt", JVal.str "500"),
            ("activationData", JVal.arr [JVal.obj [("token", JVal.str "t"),
              ("deactivated_at", JVal.null)]])]) with
        status := STATUS_VALIDATED
        reason := "Validated"
        grace_until := none
        last_validated := some 100 } :=
  ⟨rfl, by decide, by decide, by decide,
    (shared_success_update_rule (fun s => if s = "500" then some 500 else none) 100
      { Doc.empty with status := STATUS_EXPIRED, expires_at := some 10, grace_until := some 5 }
      [("expiresAt", JVal.str "500"),
        ("activationData", JVal.arr [JVal.obj [("token", JVal.str "t"),
          ("deactivated_at", JVal.null)]])]).2.2.2.2.2 rfl 500 (by decide) (by decide) (by decide)⟩

-- ---------------------------------------------------------------------
-- C7: embedded-error contract
-- ---------------------------------------------------------------------

theorem handle_success_body_error_eq (fs ds : List (String × JVal))
    (hd : jlookup fs "data" = some (JVal.obj ds))
    (herr : ((jlookup ds "errors").isSome || (jlookup ds "error_data").isSome) = true) :
    handle_success_body (JVal.obj fs) =
      Except.error
        ⟨if ((extract_embedded_error (errs_dict_of (JVal.obj ds))
              (error_data_dict_of (JVal.obj ds))).2.1).getD "" ≠ ""
          then ((extract_embedded_error (errs_dict_of (JVal.obj ds))
              (error_data_dict_of (JVal.obj ds))).2.1).getD ""
          else "Operation failed",
         (extract_embedded_error (errs_dict_of (JVal.obj ds))
            (error_data_dict_of (JVal.obj ds))).2.2,
         JVal.obj fs⟩ := by
  unfold handle_success_body
  dsimp only
  rw [hd]
  dsimp only
  rw [if_pos herr]

theorem extract_embedded_error_first_msg (c : String) (m : JVal) (restMs : List JVal)
    (restE : List (String × JVal)) (errData : JVal) :
    (extract_embedded_error (JVal.obj ((c, JVal.arr (m :: restMs)) :: restE))
      errData).2.1 = some m.pyStr := by
  unfold extract_embedded_error
  simp [jlookup]

theorem extract_embedded_error_status_at (c : String) (m : JVal) (restMs : List JVal)
    (restE : List (String × JVal)) (eds ec : List (String × JVal)) (sv : JVal)
    (h1 : jlookup eds c = some (JVal.obj ec)) (h2 : jlookup ec "status" = some sv) :
    (extract_embedded_error (JVal.obj ((c, JVal.arr (m :: restMs)) :: restE))
      (JVal.obj eds)).2.2 = sv.pyInt := by
  unfold extract_embedded_error
  simp [jlookup, h1, h2]

theorem extract_embedded_error_status_none (errs : JVal) :
    (extract_embedded_error errs (JVal.obj [])).2.2 = none := by
  unfold extract_embedded_error
  simp [jlookup]

theorem extract_embedded_error_empty_msg (errData : JVal) :
    (extract_embedded_error (JVal.obj []) errData).2.1 = none := by
  unfold extract_embedded_error
  simp [jlookup]

/-- C7: an HTTP-success body whose `data` object carries `errors` and/or
`error_data` raises `ContractError` whose payload is the full body, whose
message is the first error code's first message when that message is
non-empty (the `or`-default `"Operation failed"` otherwise, in particular
when no message can be extracted at all), and whose status is the converted
`status` found under that same code in `error_data` when present, null when
`error_data` is absent. -/
theorem embedded_error_contract (fs ds : List (String × JVal))
    (hd : jlookup fs "data" = some (JVal.obj ds))
    (herr : ((jlookup ds "errors").isSome || (jlookup ds "error_data").isSome) = true) :
    (∃ e : ErrData, handle_success_body (JVal.obj fs) = Except.error e
      ∧ e.payload = JVal.obj fs)
  ∧ (∀ c m restMs restE,
      jlookup ds "errors" = some (JVal.obj ((c, JVal.arr (m :: restMs)) :: restE)) →
      ∃ e : ErrData, handle_success_body (JVal.obj fs) = Except.error e
        ∧ e.msg = (if m.pyStr ≠ "" then m.pyStr else "Operation failed")
        ∧ e.payload = JVal.obj fs
        ∧ (∀ eds ec sv, jlookup ds "error_data" = some (JVal.obj eds) →
            jlookup eds c = some (JVal.obj ec) → jlookup ec "status" = some sv →
            e.status = sv.pyInt)
        ∧ (jlookup ds "error_data" = none → e.status = none))
  ∧ (jlookup ds "errors" = none →
      ∃ e : ErrData, handle_success_body (JVal.obj fs) = Except.error e
        ∧ e.msg = "Operation failed") := by
  refine ⟨⟨_, handle_success_body_error_eq fs ds hd herr, rfl⟩, ?_, ?_⟩
  · intro c m restMs restE he
    have hE : errs_dict_of (JVal.obj ds) =
        JVal.obj ((c, JVal.arr (m :: restMs)) :: restE) := by
      unfold errs_dict_of
      simp [JVal.getd, he, JVal.truthy]
    refine ⟨_, handle_success_body_error_eq fs ds hd herr, ?_, rfl, ?_, ?_⟩
    · rw [hE, extract_embedded_error_first_msg]
      rfl
    · intro eds ec sv hD h1 h2
      have hne : eds ≠ [] := by
        intro hnil
        rw [hnil] at h1
        exact Option.noConfusion h1
      have hD2 : error_data_dict_of (JVal.obj ds) = JVal.obj eds := by
        unfold error_data_dict_of
        cases eds with
        | nil => exact absurd rfl hne
        | cons e0 rest => simp [JVal.getd, hD, JVal.truthy]
      rw [hE, hD2]
      exact extract_embedded_error_status_at c m restMs restE eds ec sv h1 h2
    · intro hD
      have hD2 : error_data_dict_of (JVal.obj ds) = JVal.obj [] := by
        unfold error_data_dict_of
        simp [JVal.getd, hD, JVal.truthy]
      rw [hE, hD2]
      exact extract_embedded_error_status_none
        (JVal.obj ((c, JVal.arr (m :: restMs)) :: restE))
  · intro hno
    have hE : errs_dict_of (JVal.obj ds) = JVal.obj [] := by
      unfold errs_dict_of
      simp [JVal.getd, hno, JVal.truthy]
    refine ⟨_, handle_success_body_error_eq fs ds hd herr, ?_⟩
    rw [hE, extract_embedded_error_empty_msg]
    rfl

/-- Witness for `embedded_error_contract` on a canonical embedded-error
body. -/
theorem embedded_error_contract_witness :
    (jlookup [("data", JVal.obj [("errors", JVal.obj [("code1", JVal.arr [JVal.str "msg1"])]),
        ("error_data", JVal.obj [("code1", JVal.obj [("status", JVal.num 410)])])])] "data"
      = some (JVal.obj [("errors", JVal.obj [("code1", JVal.arr [JVal.str "msg1"])]),
        ("error_data", JVal.obj [("code1", JVal.obj [("status", JVal.num 410)])])])
    ∧ ((jlookup [("errors", JVal.obj [("code1", JVal.arr [JVal.str "msg1"])]),
        ("error_data", JVal.obj [("code1", JVal.obj [("status", JVal.num 410)])])] "errors").isSome
      || (jlookup [("errors", JVal.obj [("code1", JVal.arr [JVal.str "msg1"])]),
        ("error_data", JVal.obj [("code1", JVal.obj [("status", JVal.num 410)])])] "error_data").isSome) = true)
  ∧ (∃ e : ErrData, handle_success_body (JVal.obj [("data",
        JVal.obj [("errors", JVal.obj [("code1", JVal.arr [JVal.str "msg1"])]),
          ("error_data", JVal.obj [("code1", JVal.obj [("status", JVal.num 410)])])])])
        = Except.error e
      ∧ e.payload = JVal.obj [("data",
          JVal.obj [("errors", JVal.obj [("code1", JVal.arr [JVal.str "msg1"])]),
            ("error_data", JVal.obj [("code1", JVal.obj [("status", JVal.num 410)])])])]) :=
  ⟨⟨rfl, rfl⟩,
    (embedded_error_contract
      [("data", JVal.obj [("errors", JVal.obj [("code1", JVal.arr [JVal.str "msg1"])]),
        ("error_data", JVal.obj [("code1", JVal.obj [("status", JVal.num 410)])])])]
      [("errors", JVal.obj [("code1", JVal.arr [JVal.str "msg1"])]),
        ("error_data", JVal.obj [("code1", JVal.obj [("status", JVal.num 410)])])]
      rfl rfl).1⟩

-- ---------------------------------------------------------------------
-- C9: deactivate is sticky
-- ---------------------------------------------------------------------

theorem clear_token_field (d3 : Doc) :
    ((if d3.activation_token ≠ "" then { d3 with activation_token := "" } else d3) : Doc).activation_token = "" := by
  by_cases h : d3.activation_token ≠ ""
  · rw [if_pos h]
  · rw [if_neg h]
    simpa using h

theorem deactivate_locked_token (now : Int) (d2 : Doc) :
    (deactivate_locked now d2).activation_token = "" := by
  unfold deactivate_locked
  exact clear_token_field { d2 with
    status := STATUS_LOCK_HARD
    reason := "License deactivated"
    grace_until := some now }

/-- C9 counterexample: a deactivate whose request succeeds but returns a
list-shaped `data` (the shape bulk deactivation produces) makes
`_apply_deactivation_update` raise before the token-clearing line: the
stored token survives and the reason is the unexpected-error reason, not
`"License deactivated"`, refuting the claim that on success the stored
activation token is cleared. -/
theorem deactivate_sticky_counterexample :
    (deactivate_license_model (fun _ => none) 100
        { Doc.empty with license_key := "LIC-1", activation_token := "tokA" }
        (some "tokT") none (Except.error "skip")
        (RemoteOutcome.ok (JVal.obj [("data", JVal.arr [JVal.obj [("id", JVal.num 1)]])]))
        (Except.error "skip")).2.activation_token = "tokA"
  ∧ (deactivate_license_model (fun _ => none) 100
        { Doc.empty with license_key := "LIC-1", activation_token := "tokA" }
        (some "tokT") none (Except.error "skip")
        (RemoteOutcome.ok (JVal.obj [("data", JVal.arr [JVal.obj [("id", JVal.num 1)]])]))
        (Except.error "skip")).2.reason = "Deactivate unexpected error: " ++ exc_str
  ∧ (deactivate_license_model (fun _ => none) 100
        { Doc.empty with license_key := "LIC-1", activation_token := "tokA" }
        (some "tokT") none (Except.error "skip")
        (RemoteOutcome.ok (JVal.obj [("data", JVal.arr [JVal.obj [("id", JVal.num 1)]])]))
        (Except.error "skip")).1 = OpOutcome.thrown exc_str
  ∧ "tokA" ≠ "" := by
  refine ⟨rfl, rfl, rfl, by decide⟩

/-- C9 (amended): regardless of the remote outcome and of the best-effort
post-deactivation validate (even one reporting an active activation), the
persisted state after `deactivate_license` has `status = LOCK_HARD` and
`grace_until = now`; on a success whose payload lets
`_apply_deactivation_update` complete — which every dict-shaped payload
does — the stored activation token is cleared and the reason is
`"License deactivated"`; on a success whose payload makes it raise (list
payloads from bulk deactivation) the generic except-branch runs before the
token-clearing line, so the token is kept and the reason is the
unexpected-error reason. -/
theorem deactivate_sticky_amended (pd : String → Option Int) (now : Int) (doc : Doc)
    (token lkp : Option String) (pre : Except String JVal)
    (remote : RemoteOutcome) (postv : Except String JVal)
    (hlk : ¬ resolveKey doc lkp = "") :
    (deactivate_license_model pd now doc token lkp pre remote postv).2.status = STATUS_LOCK_HARD
  ∧ (deactivate_license_model pd now doc token lkp pre remote postv).2.grace_until = some now
  ∧ (∀ resp d2, remote = RemoteOutcome.ok resp →
      apply_deactivation_update pd (deactivate_predoc pd doc token pre)
        (extract_data resp) = some d2 →
      (deactivate_license_model pd now doc token lkp pre remote postv).2.activation_token = ""
      ∧ (deactivate_license_model pd now doc token lkp pre remote postv).2.reason =
          "License deactivated")
  ∧ (∀ resp, remote = RemoteOutcome.ok resp →
      apply_deactivation_update pd (deactivate_predoc pd doc token pre)
        (extract_data resp) = none →
      (deactivate_license_model pd now doc token lkp pre remote postv).2.activation_token =
          (deactivate_predoc pd doc token pre).activation_token
      ∧ (deactivate_license_model pd now doc token lkp pre remote postv).2.reason =
          "Deactivate unexpected error: " ++ exc_str
      ∧ (deactivate_license_model pd now doc token lkp pre remote postv).1 =
          OpOutcome.thrown exc_str)
  ∧ (∀ es (d : Doc), ∃ d2, apply_deactivation_update pd d (JVal.obj es) = some d2) := by
  unfold deactivate_license_model
  dsimp only
  rw [if_neg hlk]
  cases remote with
  | ok resp =>
      dsimp only
      cases hu : apply_deactivation_update pd (deactivate_predoc pd doc token pre)
          (extract_data resp) with
      | none =>
          dsimp only
          refine ⟨rfl, rfl, ?_, ?_, fun es d => ⟨_, rfl⟩⟩
          · intro resp2 d2 hresp hupd
            injection hresp with h2
            subst h2
            rw [hu] at hupd
            exact Option.noConfusion hupd
          · intro resp2 hresp hupd
            injection hresp with h2
            subst h2
            exact ⟨rfl, rfl, rfl⟩
      | some dd =>
          dsimp only
          refine ⟨rfl, rfl, ?_, ?_, fun es d => ⟨_, rfl⟩⟩
          · intro resp2 d2 hresp hupd
            refine ⟨?_, rfl⟩
            cases postv with
            | ok v =>
                dsimp only
                rw [apply_validation_update_doc_token]
                exact deactivate_locked_token now dd
            | error e =>
                dsimp only
                exact deactivate_locked_token now dd
          · intro resp2 hresp hupd
            injection hresp with h2
            subst h2
            rw [hu] at hupd
            exact Option.noConfusion hupd
  | contractFail m p =>
      refine ⟨rfl, rfl, ?_, ?_, fun es d => ⟨_, rfl⟩⟩
      · intro resp2 d2 hresp hupd
        exact RemoteOutcome.noConfusion hresp
      · intro resp2 hresp hupd
        exact RemoteOutcome.noConfusion hresp
  | requestFail m p =>
      refine ⟨rfl, rfl, ?_, ?_, fun es d => ⟨_, rfl⟩⟩
      · intro resp2 d2 hresp hupd
        exact RemoteOutcome.noConfusion hresp
      · intro resp2 hresp hupd
        exact RemoteOutcome.noConfusion hresp
  | unexpectedFail m =>
      refine ⟨rfl, rfl, ?_, ?_, fun es d => ⟨_, rfl⟩⟩
      · intro resp2 d2 hresp hupd
        exact RemoteOutcome.noConfusion hresp
      · intro resp2 hresp hupd
        exact RemoteOutcome.noConfusion hresp

/-- Witness for `deactivate_sticky_amended`: a successful dict-payload
deactivate whose post-validate reports an active activation still ends with
the token cleared and the deactivated reason. -/
theorem deactivate_sticky_amended_witness :
    (¬ resolveKey { Doc.empty with license_key := "LIC-1", activation_token := "tokA" } none = "")
  ∧ ((deactivate_license_model (fun _ => none) 100
        { Doc.empty with license_key := "LIC-1", activation_token := "tokA" }
        none none (Except.error "skip") (RemoteOutcome.ok (JVal.obj []))
        (Except.ok (JVal.obj [("data", JVal.obj [("activationData",
          JVal.arr [JVal.obj [("token", JVal.str "t"), ("deactivated_at", JVal.null)]])])]))).2.activation_token
      = ""
    ∧ (deactivate_license_model (fun _ => none) 100
        { Doc.empty with license_key := "LIC-1", activation_token := "tokA" }
        none none (Except.error "skip") (RemoteOutcome.ok (JVal.obj []))
        (Except.ok (JVal.obj [("data", JVal.obj [("activationData",
          JVal.arr [JVal.obj [("token", JVal.str "t"), ("deactivated_at", JVal.null)]])])]))).2.reason
      = "License deactivated") :=
  ⟨by decide,
    (deactivate_sticky_amended (fun _ => none) 100
      { Doc.empty with license_key := "LIC-1", activation_token := "tokA" }
      none none (Except.error "skip") (RemoteOutcome.ok (JVal.obj []))
      (Except.ok (JVal.obj [("data", JVal.obj [("activationData",
        JVal.arr [JVal.obj [("token", JVal.str "t"), ("deactivated_at", JVal.null)]])])]))
      (by decide)).2.2.1 (JVal.obj [])
      { Doc.empty with
          license_key := "LIC-1"
          activation_token := "tokA"
          status := STATUS_DEACTIVATED
          reason := "Deactivated" }
      rfl rfl⟩

-- ---------------------------------------------------------------------
-- C6: client success value (corrected)
-- ---------------------------------------------------------------------

/-- C6 counterexample: on the error-free success body `{"data": 7}` the
client's response handler returns the whole body, not the `data` value,
refuting the claim that the client operations return the body's `data`
value. -/
theorem client_success_value_counterexample :
    handle_success_body (JVal.obj [("data", JVal.num 7)]) =
      Except.ok (JVal.obj [("data", JVal.num 7)])
  ∧ (JVal.obj [("data", JVal.num 7)]).getd "data" = JVal.num 7
  ∧ handle_success_body (JVal.obj [("data", JVal.num 7)]) ≠ Except.ok (JVal.num 7) := by
  refine ⟨rfl, rfl, ?_⟩
  intro h
  rw [show handle_success_body (JVal.obj [("data", JVal.num 7)]) =
      Except.ok (JVal.obj [("data", JVal.num 7)]) from rfl] at h
  injection h with h2
  cases h2

/-- C6 amended: on the success path the client returns the whole parsed
body; the lifecycle controller's `_extract_data` then unwraps the body's
`data` value when it is a dict or a list, and keeps the whole body when
there is no `data` key. -/
theorem client_success_value_amended (body r : JVal)
    (h : handle_success_body body = Except.ok r) :
    r = body
  ∧ (∀ fs d, body = JVal.obj fs → jlookup fs "data" = some d →
      ((∃ xs, d = JVal.obj xs) ∨ (∃ xs, d = JVal.arr xs)) → extract_data body = d)
  ∧ (∀ fs, body = JVal.obj fs → jlookup fs "data" = none → extract_data body = body) := by
  refine ⟨?_, ?_, ?_⟩
  · unfold handle_success_body at h
    cases body with
    | obj fs =>
        revert h
        dsimp only
        cases hjl : jlookup fs "data" with
        | none =>
            intro h
            exact (Except.ok.inj h).symm
        | some d =>
            cases d with
            | obj ds =>
                dsimp only
                split
                · intro h
                  exact Except.noConfusion h
                · intro h
                  exact (Except.ok.inj h).symm
            | null => intro h; exact (Except.ok.inj h).symm
            | jbool b => intro h; exact (Except.ok.inj h).symm
            | num n => intro h; exact (Except.ok.inj h).symm
            | str s2 => intro h; exact (Except.ok.inj h).symm
            | arr xs => intro h; exact (Except.ok.inj h).symm
    | null => exact (Except.ok.inj h).symm
    | jbool b => exact (Except.ok.inj h).symm
    | num n => exact (Except.ok.inj h).symm
    | str s2 => exact (Except.ok.inj h).symm
    | arr xs => exact (Except.ok.inj h).symm
  · intro fs d hb hd hshape
    subst hb
    unfold extract_data
    dsimp only
    rw [hd]
    rcases hshape with ⟨xs, hx⟩ | ⟨xs, hx⟩ <;> subst hx <;> rfl
  · intro fs hb hd
    subst hb
    unfold extract_data
    dsimp only
    rw [hd]

/-- Witness for `client_success_value_amended`: the whole body survives the
client, and `_extract_data` unwraps `data`. -/
theorem client_success_value_amended_witness :
    handle_success_body (JVal.obj [("data", JVal.obj [("k", JVal.str "v")])]) =
      Except.ok (JVal.obj [("data", JVal.obj [("k", JVal.str "v")])])
  ∧ extract_data (JVal.obj [("data", JVal.obj [("k", JVal.str "v")])]) =
      JVal.obj [("k", JVal.str "v")] :=
  ⟨rfl,
    (client_success_value_amended
      (JVal.obj [("data", JVal.obj [("k", JVal.str "v")])])
      (JVal.obj [("data", JVal.obj [("k", JVal.str "v")])]) rfl).2.1
      [("data", JVal.obj [("k", JVal.str "v")])] (JVal.obj [("k", JVal.str "v")])
      rfl rfl (Or.inl ⟨[("k", JVal.str "v")], rfl⟩)⟩

-- ---------------------------------------------------------------------
-- C5: last_validated policy (corrected)
-- ---------------------------------------------------------------------

theorem mark_expired_last_validated (now : Int) (doc : Doc) (m : String) :
    (mark_expired now doc m).last_validated = doc.last_validated := rfl

theorem deactivate_predoc_last_validated (pd : String → Option Int) (doc : Doc)
    (token : Option String) (pre : Except String JVal) :
    (deactivate_predoc pd doc token pre).last_validated = doc.last_validated := by
  unfold deactivate_predoc
  split
  · exact preflight_last_validated pd doc pre
  · rfl

theorem deactivate_locked_last_validated (now : Int) (d2 : Doc) :
    (deactivate_locked now d2).last_validated = d2.last_validated := by
  unfold deactivate_locked
  dsimp only
  split <;> rfl

/-- C5 counterexample: a failed activate (contract error carrying an
expiry message) nevertheless stamps `last_validated = now`, contradicting
the claim that the field is never updated on a failed remote call. -/
theorem last_validated_counterexample :
    (activate_license_model (fun _ => none) (fun _ => none) 1000
        { Doc.empty with license_key := "LIC-1" } none none
        (RemoteOutcome.contractFail "License has expired" JVal.null)).1 =
      OpOutcome.thrown "License is expired. Please renew your license."
  ∧ (activate_license_model (fun _ => none) (fun _ => none) 1000
        { Doc.empty with license_key := "LIC-1" } none none
        (RemoteOutcome.contractFail "License has expired" JVal.null)).2.last_validated =
      some 1000
  ∧ ({ Doc.empty with license_key := "LIC-1" } : Doc).last_validated = none :=
  ⟨rfl, rfl, rfl⟩

/-- C5 amended: `last_validated` is stamped exactly by remote confirmations
whose success payload lets the update helper complete (activate success,
validate success — including the post-deactivation validate), never by
local-only transitions or failed calls — a success payload that makes the
update helper raise also leaves it unchanged — with the single
code-faithful exception that `activate_license`'s expired-error branch
stamps it on a failed activate. -/
theorem last_validated_policy (pd pe : String → Option Int) (now : Int) (doc : Doc) :
    (∀ err, (apply_grace_on_failure now doc err).last_validated = doc.last_validated)
  ∧ (∀ m, (mark_expired now doc m).last_validated = doc.last_validated)
  ∧ (∀ res, (preflight_refresh_token pd doc res).last_validated = doc.last_validated)
  ∧ (∀ lkp m p,
      (validate_license_model pd now doc lkp (.contractFail m p)).2.last_validated =
        doc.last_validated)
  ∧ (∀ lkp m p,
      (validate_license_model pd now doc lkp (.requestFail m p)).2.last_validated =
        doc.last_validated)
  ∧ (∀ lkp m,
      (validate_license_model pd now doc lkp (.unexpectedFail m)).2.last_validated =
        doc.last_validated)
  ∧ (∀ lkp resp d1, ¬ resolveKey doc lkp = "" →
      apply_validation_update pd now doc (extract_data resp) = .ok d1 →
      (validate_license_model pd now doc lkp (.ok resp)).2.last_validated = some now)
  ∧ (∀ lkp resp d1, ¬ resolveKey doc lkp = "" →
      apply_validation_update pd now doc (extract_data resp) = .raised d1 →
      (validate_license_model pd now doc lkp (.ok resp)).2.last_validated =
        doc.last_validated)
  ∧ (∀ lkp tokp m p, ¬ resolveKey doc lkp = "" → activate_error_expired m p = false →
      (activate_license_model pd pe now doc lkp tokp (.contractFail m p)).2 = doc)
  ∧ (∀ lkp tokp m p, ¬ resolveKey doc lkp = "" → activate_error_expired m p = true →
      (activate_license_model pd pe now doc lkp tokp (.contractFail m p)).2.last_validated =
        some now)
  ∧ (∀ lkp tokp resp d1, ¬ resolveKey doc lkp = "" →
      apply_activation_update pd now doc (extract_data resp) = some d1 →
      (activate_license_model pd pe now doc lkp tokp (.ok resp)).2.last_validated = some now)
  ∧ (∀ lkp tokp resp, ¬ resolveKey doc lkp = "" →
      apply_activation_update pd now doc (extract_data resp) = none →
      (activate_license_model pd pe now doc lkp tokp (.ok resp)).2 = doc)
  ∧ (∀ lkp tokp m,
      (activate_license_model pd pe now doc lkp tokp (.unexpectedFail m)).2 = doc)
  ∧ (∀ token lkp pre m p postv,
      (deactivate_license_model pd now doc token lkp pre (.contractFail m p)
        postv).2.last_validated = doc.last_validated)
  ∧ (∀ token lkp pre m p postv,
      (deactivate_license_model pd now doc token lkp pre (.requestFail m p)
        postv).2.last_validated = doc.last_validated)
  ∧ (∀ token lkp pre m postv,
      (deactivate_license_model pd now doc token lkp pre (.unexpectedFail m)
        postv).2.last_validated = doc.last_validated)
  ∧ (∀ token lkp pre resp e,
      (deactivate_license_model pd now doc token lkp pre (.ok resp)
        (Except.error e)).2.last_validated = doc.last_validated)
  ∧ (∀ token lkp pre resp postv, ¬ resolveKey doc lkp = "" →
      apply_deactivation_update pd (deactivate_predoc pd doc token pre)
        (extract_data resp) = none →
      (deactivate_license_model pd now doc token lkp pre (.ok resp)
        postv).2.last_validated = doc.last_validated)
  ∧ (∀ token lkp pre resp v d2 d5, ¬ resolveKey doc lkp = "" →
      apply_deactivation_update pd (deactivate_predoc pd doc token pre)
        (extract_data resp) = some d2 →
      apply_validation_update pd now (deactivate_locked now d2)
        (extract_data v) = .ok d5 →
      (deactivate_license_model pd now doc token lkp pre (.ok resp)
        (Except.ok v)).2.last_validated = some now)
  ∧ (∀ token lkp pre resp v d2 d5, ¬ resolveKey doc lkp = "" →
      apply_deactivation_update pd (deactivate_predoc pd doc token pre)
        (extract_data resp) = some d2 →
      apply_validation_update pd now (deactivate_locked now d2)
        (extract_data v) = .raised d5 →
      (deactivate_license_model pd now doc token lkp pre (.ok resp)
        (Except.ok v)).2.last_validated = doc.last_validated)
  ∧ (∀ token lkp pre1 act1 pre2 act2,
      ((reactivate_license_model pd now doc token lkp pre1 act1 pre2 act2).2.1.last_validated =
          doc.last_validated)
      ∨ ((∃ v, (reactivate_license_model pd now doc token lkp pre1 act1 pre2 act2).1 =
            OpOutcome.ret v)
        ∧ (reactivate_license_model pd now doc token lkp pre1 act1 pre2 act2).2.1.last_validated =
            some now)) := by
  have hpre := preflight_last_validated pd
  have hgrace := apply_grace_last_validated
  refine ⟨fun err => hgrace now doc err, fun m => rfl, fun res => hpre doc res,
    ?_, ?_, ?_, ?_, ?_, ?_, ?_, ?_, ?_, ?_, ?_, ?_, ?_, ?_, ?_, ?_, ?_, ?_⟩
  · intro lkp m p
    unfold validate_license_model
    dsimp only
    split
    · rfl
    · exact hgrace now doc m
  · intro lkp m p
    unfold validate_license_model
    dsimp only
    split
    · rfl
    · exact hgrace now doc m
  · intro lkp m
    unfold validate_license_model
    dsimp only
    split
    · rfl
    · exact hgrace now doc _
  · intro lkp resp d1 hlk hok
    unfold validate_license_model
    dsimp only
    rw [if_neg hlk]
    rw [hok]
    dsimp only
    rw [maybe_update_token_last_validated]
    exact apply_validation_update_ok_lv pd now doc _ d1 hok
  · intro lkp resp d1 hraisedArg hlk
    unfold validate_license_model
    dsimp only
    rw [if_neg hraisedArg]
    rw [hlk]
    dsimp only
    rw [apply_grace_last_validated]
    exact apply_validation_update_raised_lv pd now doc _ d1 hlk
  · intro lkp tokp m p hlk hexp
    unfold activate_license_model
    dsimp only
    rw [if_neg hlk]
    unfold activate_license_model.activate_license_err
    rw [hexp]
    simp
  · intro lkp tokp m p hlk hexp
    unfold activate_license_model
    dsimp only
    rw [if_neg hlk]
    unfold activate_license_model.activate_license_err
    rw [hexp]
    rw [if_pos rfl]
  · intro lkp tokp resp d1 hlk hsome
    unfold activate_license_model
    dsimp only
    rw [if_neg hlk]
    rw [hsome]
    dsimp only
    rw [maybe_update_token_last_validated]
    exact apply_activation_update_some_lv pd now doc _ d1 hsome
  · intro lkp tokp resp hlk hnone
    unfold activate_license_model
    dsimp only
    rw [if_neg hlk]
    rw [hnone]
  · intro lkp tokp m
    unfold activate_license_model
    dsimp only
    split <;> rfl
  · intro token lkp pre m p postv
    unfold deactivate_license_model
    dsimp only
    split
    · rfl
    · exact deactivate_predoc_last_validated pd doc token pre
  · intro token lkp pre m p postv
    unfold deactivate_license_model
    dsimp only
    split
    · rfl
    · exact deactivate_predoc_last_validated pd doc token pre
  · intro token lkp pre m postv
    unfold deactivate_license_model
    dsimp only
    split
    · rfl
    · exact deactivate_predoc_last_validated pd doc token pre
  · intro token lkp pre resp e
    unfold deactivate_license_model
    dsimp only
    split
    · rfl
    · split
      · exact deactivate_predoc_last_validated pd doc token pre
      · next dd heq =>
          dsimp only
          rw [deactivate_locked_last_validated]
          rw [apply_deactivation_update_some_lv pd _ _ dd heq]
          exact deactivate_predoc_last_validated pd doc token pre
  · intro token lkp pre resp postv hlk hnone
    unfold deactivate_license_model
    dsimp only
    rw [if_neg hlk]
    rw [hnone]
    exact deactivate_predoc_last_validated pd doc token pre
  · intro token lkp pre resp v d2 d5 hlk hupd hval
    unfold deactivate_license_model
    dsimp only
    rw [if_neg hlk]
    rw [hupd]
    dsimp only
    rw [hval]
    dsimp only [UpdResult.doc]
    exact apply_validation_update_ok_lv pd now (deactivate_locked now d2)
      (extract_data v) d5 hval
  · intro token lkp pre resp v d2 d5 hlk hupd hval
    unfold deactivate_license_model
    dsimp only
    rw [if_neg hlk]
    rw [hupd]
    dsimp only
    rw [hval]
    dsimp only [UpdResult.doc]
    rw [apply_validation_update_raised_lv pd now (deactivate_locked now d2)
      (extract_data v) d5 hval]
    rw [deactivate_locked_last_validated]
    rw [apply_deactivation_update_some_lv pd _ _ d2 hupd]
    exact deactivate_predoc_last_validated pd doc token pre
  · intro token lkp pre1 act1 pre2 act2
    unfold reactivate_license_model
    dsimp only
    split
    · exact Or.inl rfl
    · split
      · exact Or.inl (hpre doc pre1)
      · cases act1 with
        | ok resp =>
            dsimp only
            cases hu : apply_activation_update pd now
                (preflight_refresh_token pd doc pre1) (extract_data resp) with
            | none =>
                dsimp only
                exact Or.inl (hpre doc pre1)
            | some dd =>
                dsimp only
                refine Or.inr ⟨⟨_, rfl⟩, ?_⟩
                unfold activate_via_client
                dsimp only
                rw [hu]
                dsimp only
                rw [maybe_update_token_last_validated]
                exact apply_activation_update_some_lv pd now _ _ dd hu
        | requestFail m p => exact Or.inl (hpre doc pre1)
        | unexpectedFail m => exact Or.inl (hpre doc pre1)
        | contractFail m p =>
            dsimp only
            split
            · refine Or.inl ?_
              rw [mark_expired_last_validated]
              exact hpre doc pre1
            · split
              · split
                · cases act2 with
                  | ok resp =>
                      dsimp only
                      cases hu : apply_activation_update pd now
                          (preflight_refresh_token pd
                            (preflight_refresh_token pd doc pre1) pre2)
                          (extract_data resp) with
                      | none =>
                          dsimp only
                          refine Or.inl ?_
                          rw [hpre, hpre]
                      | some dd =>
                          dsimp only
                          refine Or.inr ⟨⟨_, rfl⟩, ?_⟩
                          unfold activate_via_client
                          dsimp only
                          rw [hu]
                          dsimp only
                          rw [maybe_update_token_last_validated]
                          exact apply_activation_update_some_lv pd now _ _ dd hu
                  | requestFail m2 p2 =>
                      dsimp only
                      refine Or.inl ?_
                      split
                      · rw [hpre, hpre]
                      · rw [hpre, hpre]
                  | contractFail m2 p2 =>
                      refine Or.inl ?_
                      rw [hpre, hpre]
                  | unexpectedFail m2 =>
                      refine Or.inl ?_
                      rw [hpre, hpre]
                · refine Or.inl ?_
                  rw [hpre, hpre]
              · exact Or.inl (hpre doc pre1)

/-- Witness for `last_validated_policy`: a successful validate whose update
helper completes stamps `last_validated = now`. -/
theorem last_validated_policy_witness :
    (¬ resolveKey { Doc.empty with license_key := "LIC-1" } none = ""
      ∧ apply_validation_update (fun _ => none) 7 { Doc.empty with license_key := "LIC-1" }
          (extract_data JVal.null) = UpdResult.raised { Doc.empty with license_key := "LIC-1" })
  ∧ (validate_license_model (fun _ => none) 7 { Doc.empty with license_key := "LIC-1" }
        none (.ok JVal.null)).2.last_validated = none :=
  ⟨⟨by decide, by decide⟩, by
    have h := (last_validated_policy (fun _ => none) (fun _ => none) 7
      { Doc.empty with license_key := "LIC-1" }).2.2.2.2.2.2.2.1 none JVal.null
      { Doc.empty with license_key := "LIC-1" } (by decide) (by decide)
    simpa using h⟩

-- ---------------------------------------------------------------------
-- C4: reactivate activation-limit retry (corrected)
-- ---------------------------------------------------------------------

/-- C4 counterexample: a contract error whose message matches "activation
limit" only case-insensitively (`"ACTIVATION LIMIT REACHED"`) triggers no
retry cycle — the trace shows no second preflight validate and the generic
failure is surfaced — because the source matches `"Activation limit"` and
`"maximum activation"` case-sensitively. -/
theorem reactivate_retry_counterexample :
    strContains (lowerStr "ACTIVATION LIMIT REACHED") "activation limit" = true
  ∧ (reactivate_license_model (fun _ => none) 100
      { Doc.empty with license_key := "LIC-1", activation_token := "tokA" }
      none none (Except.error "skip")
      (RemoteOutcome.contractFail "ACTIVATION LIMIT REACHED" JVal.null)
      (Except.error "skip") (RemoteOutcome.ok JVal.null)).2.2 =
      [TraceCall.validateCall, TraceCall.activateCall "tokA"]
  ∧ (reactivate_license_model (fun _ => none) 100
      { Doc.empty with license_key := "LIC-1", activation_token := "tokA" }
      none none (Except.error "skip")
      (RemoteOutcome.contractFail "ACTIVATION LIMIT REACHED" JVal.null)
      (Except.error "skip") (RemoteOutcome.ok JVal.null)).1 =
      OpOutcome.thrown "Operation failed. See Error Log for details." :=
  ⟨by decide, by decide, rfl⟩

theorem reactivate_retry_token_ne (pd : String → Option Int) (d1 : Doc)
    (pre2 : Except String JVal) (eff : String) (heff : ¬ eff = "") :
    ¬ reactivate_retry_token pd d1 pre2 eff = "" := by
  unfold reactivate_retry_token
  dsimp only
  split
  · next h => exact h
  · exact heff

/-- C4 amended: the retry condition is a case-sensitive message match on
`"Activation limit"` or `"maximum activation"`; when it fires on a
non-expiry contract error, a second preflight validate is always issued;
when the token so obtained differs from the first attempt's, activate is
retried exactly once with it, and an idempotency-guard `RequestError` on
that retry surfaces the distinct "still settling" message; when no
different token was obtained, no retry activate is issued and the
"no fresh token issued" failure is surfaced. -/
theorem reactivate_activation_limit_retry (pd : String → Option Int) (now : Int)
    (doc : Doc) (token lkp : Option String)
    (pre1 pre2 : Except String JVal) (act2 : RemoteOutcome) (m : String) (p : JVal)
    (hlk : ¬ resolveKey doc lkp = "")
    (heff : ¬ reactivate_eff_token pd doc token pre1 = "")
    (hexp : is_expired_error m = false)
    (hlim : (strContains m "Activation limit" || strContains m "maximum activation") = true) :
    (¬ reactivate_retry_token pd (preflight_refresh_token pd doc pre1) pre2
        (reactivate_eff_token pd doc token pre1) = reactivate_eff_token pd doc token pre1 →
      (reactivate_license_model pd now doc token lkp pre1 (.contractFail m p) pre2 act2).2.2 =
        [.validateCall, .activateCall (reactivate_eff_token pd doc token pre1),
         .validateCall,
         .activateCall (reactivate_retry_token pd (preflight_refresh_token pd doc pre1) pre2
           (reactivate_eff_token pd doc token pre1))]
      ∧ (∀ m2 p2, act2 = .requestFail m2 p2 →
          strContains (lowerStr m2) "idempotency guard" = true →
          (reactivate_license_model pd now doc token lkp pre1 (.contractFail m p) pre2 act2).1 =
            OpOutcome.thrown
              "Another activation attempt is still settling. Please retry in a few seconds."))
  ∧ (reactivate_retry_token pd (preflight_refresh_token pd doc pre1) pre2
        (reactivate_eff_token pd doc token pre1) = reactivate_eff_token pd doc token pre1 →
      (reactivate_license_model pd now doc token lkp pre1 (.contractFail m p) pre2 act2).2.2 =
        [.validateCall, .activateCall (reactivate_eff_token pd doc token pre1), .validateCall]
      ∧ (reactivate_license_model pd now doc token lkp pre1 (.contractFail m p) pre2 act2).1 =
        OpOutcome.thrown
          "Activation limit reached on the server and no fresh token was issued. Please deactivate an existing activation or increase the limit.") := by
  have hrun : reactivate_license_model pd now doc token lkp pre1 (.contractFail m p) pre2 act2 =
      (if reactivate_retry_token pd (preflight_refresh_token pd doc pre1) pre2
            (reactivate_eff_token pd doc token pre1) ≠ ""
          ∧ reactivate_retry_token pd (preflight_refresh_token pd doc pre1) pre2
            (reactivate_eff_token pd doc token pre1) ≠ reactivate_eff_token pd doc token pre1
       then
        (match act2 with
          | .ok resp =>
              (match apply_activation_update pd now
                  (preflight_refresh_token pd (preflight_refresh_token pd doc pre1) pre2)
                  (extract_data resp) with
                | some _ =>
                    ((OpOutcome.ret (activate_via_client pd now
                        (preflight_refresh_token pd (preflight_refresh_token pd doc pre1) pre2) resp).2,
                      (activate_via_client pd now
                        (preflight_refresh_token pd (preflight_refresh_token pd doc pre1) pre2) resp).1,
                      [.validateCall, .activateCall (reactivate_eff_token pd doc token pre1),
                       .validateCall, .activateCall (reactivate_retry_token pd
                         (preflight_refresh_token pd doc pre1) pre2
                         (reactivate_eff_token pd doc token pre1))]) : OpOutcome × Doc × List TraceCall)
                | none =>
                    (OpOutcome.raisedOther exc_str,
                      preflight_refresh_token pd (preflight_refresh_token pd doc pre1) pre2,
                      [.validateCall, .activateCall (reactivate_eff_token pd doc token pre1),
                       .validateCall, .activateCall (reactivate_retry_token pd
                         (preflight_refresh_token pd doc pre1) pre2
                         (reactivate_eff_token pd doc token pre1))]))
          | .requestFail m2 _ =>
              if strContains (lowerStr m2) "idempotency guard" then
                (OpOutcome.thrown "Another activation attempt is still settling. Please retry in a few seconds.",
                  preflight_refresh_token pd (preflight_refresh_token pd doc pre1) pre2,
                  [.validateCall, .activateCall (reactivate_eff_token pd doc token pre1),
                   .validateCall, .activateCall (reactivate_retry_token pd
                     (preflight_refresh_token pd doc pre1) pre2
                     (reactivate_eff_token pd doc token pre1))])
              else
                (OpOutcome.raisedRequest m2,
                  preflight_refresh_token pd (preflight_refresh_token pd doc pre1) pre2,
                  [.validateCall, .activateCall (reactivate_eff_token pd doc token pre1),
                   .validateCall, .activateCall (reactivate_retry_token pd
                     (preflight_refresh_token pd doc pre1) pre2
                     (reactivate_eff_token pd doc token pre1))])
          | .contractFail m2 _ =>
              (OpOutcome.raisedContract m2,
                preflight_refresh_token pd (preflight_refresh_token pd doc pre1) pre2,
                [.validateCall, .activateCall (reactivate_eff_token pd doc token pre1),
                 .validateCall, .activateCall (reactivate_retry_token pd
                   (preflight_refresh_token pd doc pre1) pre2
                   (reactivate_eff_token pd doc token pre1))])
          | .unexpectedFail m2 =>
              (OpOutcome.raisedOther m2,
                preflight_refresh_token pd (preflight_refresh_token pd doc pre1) pre2,
                [.validateCall, .activateCall (reactivate_eff_token pd doc token pre1),
                 .validateCall, .activateCall (reactivate_retry_token pd
                   (preflight_refresh_token pd doc pre1) pre2
                   (reactivate_eff_token pd doc token pre1))]))
       else
        (OpOutcome.thrown "Activation limit reached on the server and no fresh token was issued. Please deactivate an existing activation or increase the limit.",
          preflight_refresh_token pd (preflight_refresh_token pd doc pre1) pre2,
          [.validateCall, .activateCall (reactivate_eff_token pd doc token pre1),
           .validateCall])) := by
    unfold reactivate_license_model
    dsimp only
    rw [if_neg hlk]
    rw [if_neg heff]
    rw [hexp]
    rw [if_neg (by simp)]
    rw [hlim]
    rw [if_pos rfl]
  constructor
  · intro hne
    have hcond : reactivate_retry_token pd (preflight_refresh_token pd doc pre1) pre2
          (reactivate_eff_token pd doc token pre1) ≠ ""
        ∧ reactivate_retry_token pd (preflight_refresh_token pd doc pre1) pre2
          (reactivate_eff_token pd doc token pre1) ≠ reactivate_eff_token pd doc token pre1 :=
      ⟨reactivate_retry_token_ne pd _ pre2 _ heff, hne⟩
    rw [hrun, if_pos hcond]
    constructor
    · cases act2 with
      | ok resp =>
          dsimp only
          split <;> rfl
      | requestFail m2 p2 =>
          dsimp only
          split <;> rfl
      | contractFail m2 p2 => rfl
      | unexpectedFail m2 => rfl
    · intro m2 p2 hact hguard
      subst hact
      dsimp only
      rw [hguard]
      rw [if_pos rfl]
  · intro heq
    have hcond : ¬ (reactivate_retry_token pd (preflight_refresh_token pd doc pre1) pre2
          (reactivate_eff_token pd doc token pre1) ≠ ""
        ∧ reactivate_retry_token pd (preflight_refresh_token pd doc pre1) pre2
          (reactivate_eff_token pd doc token pre1) ≠ reactivate_eff_token pd doc token pre1) := by
      intro hc
      exact hc.2 heq
    rw [hrun, if_neg hcond]
    exact ⟨rfl, rfl⟩

/-- Witness for `reactivate_activation_limit_retry`: limit error, fresh
token from the retry preflight, idempotency guard hit on the retry. -/
theorem reactivate_activation_limit_retry_witness :
    (¬ resolveKey { Doc.empty with license_key := "LIC-1", activation_token := "tokA" } none = ""
      ∧ ¬ reactivate_eff_token (fun _ => none)
          { Doc.empty with license_key := "LIC-1", activation_token := "tokA" }
          none (Except.error "skip") = ""
      ∧ is_expired_error "maximum activation limit reached" = false
      ∧ (strContains "maximum activation limit reached" "Activation limit"
          || strContains "maximum activation limit reached" "maximum activation") = true)
  ∧ (reactivate_license_model (fun _ => none) 100
      { Doc.empty with license_key := "LIC-1", activation_token := "tokA" }
      none none (Except.error "skip")
      (RemoteOutcome.contractFail "maximum activation limit reached" JVal.null)
      (Except.ok (JVal.obj [("data", JVal.obj [("activationData",
        JVal.obj [("token", JVal.str "tokB")])])]))
      (RemoteOutcome.requestFail "Duplicate activate blocked by idempotency guard" JVal.null)).1 =
      OpOutcome.thrown
        "Another activation attempt is still settling. Please retry in a few seconds." :=
  ⟨⟨by decide, by decide, by decide, by decide⟩,
    ((reactivate_activation_limit_retry (fun _ => none) 100
      { Doc.empty with license_key := "LIC-1", activation_token := "tokA" }
      none none (Except.error "skip")
      (Except.ok (JVal.obj [("data", JVal.obj [("activationData",
        JVal.obj [("token", JVal.str "tokB")])])]))
      (RemoteOutcome.requestFail "Duplicate activate blocked by idempotency guard" JVal.null)
      "maximum activation limit reached" JVal.null
      (by decide) (by decide) (by decide) (by decide)).1 (by decide)).2
      "Duplicate activate blocked by idempotency guard" JVal.null rfl (by decide)⟩

end BrvLicense
